import Mathlib

/-!
Shallow embedding of `src/lambda_function.py` (AWS PRM auto-tagging Lambda).

The provider (boto3) is treated as an external collaborator: every provider
call is represented by its observable outcome, supplied up-front in an
"environment" value.  `CallOutcome.clientError` stands for a
`botocore.exceptions.ClientError` raised by the call; enumeration (list or
describe) calls are represented by `EnumRes`, whose `err` constructor stands
for the list call itself raising `ClientError`.  Resource identifiers are
opaque strings (we store the display segment that the Python code writes into
its `results` list).  The mutable `self.stats` dictionary and the number of
mutating provider calls actually issued (`create_tags`, `tag_resources`,
`put_bucket_tagging`, `add_tags`) are threaded through explicitly as a
`TagState`; the `TagSet` bodies passed to `put_bucket_tagging` are recorded in
`s3Writes`.
-/

namespace AutoTag

/-- Outcome of a single provider API call: success, or a raised
`botocore.exceptions.ClientError`. -/
inductive CallOutcome
  | ok
  | clientError
deriving DecidableEq

/-- Result of an enumeration (list/describe) call for one resource kind:
either the finite list of discovered items, or the list call itself raising
`ClientError`. -/
inductive EnumRes (α : Type)
  | ok (items : List α)
  | err
deriving DecidableEq

/-- The statistics dictionary initialised in `ResourceTagger.__init__`
(lines 49-54): `{'total': 0, 'tagged': 0, 'failed': 0, 'skipped': 0}`. -/
structure Stats where
  total : Nat
  tagged : Nat
  failed : Nat
  skipped : Nat
deriving DecidableEq

/-- A bucket tag as passed to / returned by the S3 tagging API:
`{'Key': k, 'Value': v}` pairs. -/
abbrev BucketTag := String × String

/-- The mutable state of one `ResourceTagger` plus instrumentation:
`mutCalls` counts mutating provider calls issued (`create_tags`,
`tag_resources`, `put_bucket_tagging`, `add_tags`) and `s3Writes` records the
`TagSet` bodies sent to `put_bucket_tagging`. -/
structure TagState where
  stats : Stats
  mutCalls : Nat
  s3Writes : List (List BucketTag)
deriving DecidableEq

/-- `self.stats['total'] += 1` -/
def bumpTotal (st : TagState) : TagState :=
  { st with stats := { st.stats with total := st.stats.total + 1 } }

/-- `self.stats['tagged'] += 1` -/
def bumpTagged (st : TagState) : TagState :=
  { st with stats := { st.stats with tagged := st.stats.tagged + 1 } }

/-- `self.stats['failed'] += 1` -/
def bumpFailed (st : TagState) : TagState :=
  { st with stats := { st.stats with failed := st.stats.failed + 1 } }

/-- A mutating provider call (other than `put_bucket_tagging`) is issued. -/
def bumpMut (st : TagState) : TagState :=
  { st with mutCalls := st.mutCalls + 1 }

/-- A `put_bucket_tagging` call is issued with body `ts`. -/
def recordWrite (ts : List BucketTag) (st : TagState) : TagState :=
  { st with mutCalls := st.mutCalls + 1, s3Writes := st.s3Writes ++ [ts] }

/-- Fresh state of a `ResourceTagger` right after `__init__`. -/
def initState : TagState := ⟨⟨0, 0, 0, 0⟩, 0, []⟩

/-- `ResourceTagger.tag_using_resource_groups_api` (lines 65-86).
Returns the boolean the Python function returns, together with the updated
state.  In dry-run mode it only increments `total`; otherwise it issues
`tag_resources` and on success increments `total` and `tagged`, while on
`ClientError` it increments `total` and `failed` and returns `False`. -/
def tag_using_resource_groups_api (dry : Bool) (outcome : CallOutcome)
    (st : TagState) : Bool × TagState :=
  if dry then
    (true, bumpTotal st)
  else
    match outcome with
    | .ok => (true, bumpTagged (bumpTotal (bumpMut st)))
    | .clientError => (false, bumpFailed (bumpTotal (bumpMut st)))

/-- A resource tagged through the Resource Groups Tagging API path:
`name` is the display segment appended to `results`, `outcome` the provider's
response to `tag_resources` on its ARN. -/
structure RgItem where
  name : String
  outcome : CallOutcome
deriving DecidableEq

/-- A resource tagged by a direct mutating call inside the enumeration loop
(`ec2.create_tags` for EC2 resources, `elb.add_tags` for classic load
balancers): a raised `ClientError` is *not* caught per resource and escapes
to the kind-level handler. -/
structure DirectItem where
  id : String
  outcome : CallOutcome
deriving DecidableEq

/-- A resource whose taggable ARN is obtained by an extra per-item lookup
call (`dynamodb.describe_table`, `eks.describe_cluster`,
`sqs.get_queue_attributes`, `sts.get_caller_identity` for EFS): `pre` is that
lookup's outcome; if it raises, the exception escapes to the enclosing
handler. -/
structure PreItem where
  name : String
  pre : CallOutcome
  outcome : CallOutcome
deriving DecidableEq

/-- An ElastiCache cluster / replication group: the Python code tags it only
`if 'ARN' in cluster`, so `arn = none` models the key being absent (the item
is skipped silently). -/
structure CacheItem where
  name : String
  arn : Option CallOutcome
deriving DecidableEq

/-- An ECS cluster: tagging outcome for the cluster ARN plus the nested
`list_services` enumeration of its services. -/
structure EcsCluster where
  name : String
  outcome : CallOutcome
  services : EnumRes RgItem
deriving DecidableEq

/-- An S3 bucket as seen by `tag_s3_buckets`: `locErr` models
`get_bucket_location` raising; `loc` is the `LocationConstraint` (AWS returns
null for us-east-1 buckets, modelled as `none`); `existingTags` is the
`TagSet` returned by `get_bucket_tagging` (`none` models that call raising,
which the code maps to `[]`); `putOutcome` is the `put_bucket_tagging`
response. -/
structure Bucket where
  name : String
  locErr : Bool
  loc : Option String
  existingTags : Option (List BucketTag)
  putOutcome : CallOutcome
deriving DecidableEq

/-- The loop body shared by all kinds that tag through
`tag_using_resource_groups_api` (lambda, rds, sns, ..., lines 220-224 etc.):
each discovered resource is passed to the API helper and appended to
`results` when the helper returns `True`. -/
def tagRgLoop (dry : Bool) (pfx : String) (items : List RgItem)
    (st : TagState) (acc : List String) : TagState × List String :=
  match items with
  | [] => (st, acc)
  | i :: rest =>
    let r := tag_using_resource_groups_api dry i.outcome st
    if r.1 then tagRgLoop dry pfx rest r.2 (acc ++ [pfx ++ ":" ++ i.name])
    else tagRgLoop dry pfx rest r.2 acc

/-- The loop body of the EC2 / classic-ELB style blocks (lines 96-157,
365-378): a direct mutating call per resource; a raised `ClientError`
escapes immediately (third component `true`) with the results accumulated so
far, before `total` is incremented or the identifier appended. -/
def tagDirectLoop (dry : Bool) (pfx : String) (items : List DirectItem)
    (st : TagState) (acc : List String) : TagState × List String × Bool :=
  match items with
  | [] => (st, acc, false)
  | i :: rest =>
    if dry then
      tagDirectLoop dry pfx rest (bumpTotal st) (acc ++ [pfx ++ ":" ++ i.id])
    else
      match i.outcome with
      | .clientError => (bumpMut st, acc, true)
      | .ok =>
        tagDirectLoop dry pfx rest (bumpTotal (bumpTagged (bumpMut st)))
          (acc ++ [pfx ++ ":" ++ i.id])

/-- Loop for kinds with a per-item lookup call before the Resource Groups
path (dynamodb, eks, sqs, efs): a lookup `ClientError` escapes to the
enclosing handler (third component `true`). -/
def tagPreRgLoop (dry : Bool) (pfx : String) (items : List PreItem)
    (st : TagState) (acc : List String) : TagState × List String × Bool :=
  match items with
  | [] => (st, acc, false)
  | i :: rest =>
    match i.pre with
    | .clientError => (st, acc, true)
    | .ok =>
      let r := tag_using_resource_groups_api dry i.outcome st
      if r.1 then tagPreRgLoop dry pfx rest r.2 (acc ++ [pfx ++ ":" ++ i.name])
      else tagPreRgLoop dry pfx rest r.2 acc

/-- Loop for the ElastiCache blocks (lines 329-342): items without an `ARN`
key are skipped silently, the rest go through the Resource Groups path. -/
def tagCacheLoop (dry : Bool) (pfx : String) (items : List CacheItem)
    (st : TagState) (acc : List String) : TagState × List String :=
  match items with
  | [] => (st, acc)
  | i :: rest =>
    match i.arn with
    | none => tagCacheLoop dry pfx rest st acc
    | some outcome =>
      let r := tag_using_resource_groups_api dry outcome st
      if r.1 then tagCacheLoop dry pfx rest r.2 (acc ++ [pfx ++ ":" ++ i.name])
      else tagCacheLoop dry pfx rest r.2 acc

/-- The ECS cluster loop (lines 285-296): tag each cluster through the
Resource Groups path, then enumerate and tag its services; a `ClientError`
from `list_services` escapes to the kind-level handler. -/
def tagEcsLoop (dry : Bool) (clusters : List EcsCluster)
    (st : TagState) (acc : List String) : TagState × List String × Bool :=
  match clusters with
  | [] => (st, acc, false)
  | c :: rest =>
    let r := tag_using_resource_groups_api dry c.outcome st
    let acc1 := if r.1 then acc ++ ["ecs-cluster:" ++ c.name] else acc
    match c.services with
    | .err => (r.2, acc1, true)
    | .ok svcs =>
      let p := tagRgLoop dry "ecs-service" svcs r.2 acc1
      tagEcsLoop dry rest p.1 p.2

/-- The `TagSet` that `tag_s3_buckets` sends to `put_bucket_tagging`
(lines 183-196): the existing tags with our key/value *appended*
(`tag_set.append(...)` -- there is no overwrite of an existing key). -/
def mergeTags (tagKey tagValue : String) (existing : List BucketTag) :
    List BucketTag :=
  existing ++ [(tagKey, tagValue)]

/-- `location['LocationConstraint'] or 'us-east-1'` (line 178). -/
def bucketRegion (b : Bucket) : String := b.loc.getD "us-east-1"

/-- The selection condition of line 181:
`bucket_region == self.region or bucket_region == 'us-east-1'`. -/
def bucketSelected (region : String) (b : Bucket) : Bool :=
  bucketRegion b == region || bucketRegion b == "us-east-1"

/-- The per-bucket loop of `tag_s3_buckets` (lines 172-205): a `ClientError`
from `get_bucket_location` or `put_bucket_tagging` is caught per bucket and
counted as `failed`; a failing `get_bucket_tagging` yields an empty starting
`TagSet`. -/
def s3Loop (dry : Bool) (region tagKey tagValue : String)
    (buckets : List Bucket) (st : TagState) (acc : List String) :
    TagState × List String :=
  match buckets with
  | [] => (st, acc)
  | b :: rest =>
    if b.locErr then
      s3Loop dry region tagKey tagValue rest (bumpFailed st) acc
    else if bucketSelected region b then
      if dry then
        s3Loop dry region tagKey tagValue rest (bumpTotal st)
          (acc ++ ["s3-bucket:" ++ b.name])
      else
        let ts := mergeTags tagKey tagValue (b.existingTags.getD [])
        match b.putOutcome with
        | .clientError =>
          s3Loop dry region tagKey tagValue rest
            (bumpFailed (recordWrite ts st)) acc
        | .ok =>
          s3Loop dry region tagKey tagValue rest
            (bumpTagged (bumpTotal (recordWrite ts st)))
            (acc ++ ["s3-bucket:" ++ b.name])
    else
      s3Loop dry region tagKey tagValue rest st acc

/-- Sequencing of several direct-call blocks under one `try` with a single
kind-level `except ClientError` that increments `failed` once and returns the
results accumulated so far (the structure of `tag_ec2_resources`). -/
def tagDirectKind (dry : Bool) (groups : List (String × EnumRes DirectItem))
    (st : TagState) (acc : List String) : TagState × List String :=
  match groups with
  | [] => (st, acc)
  | (_, .err) :: _ => (bumpFailed st, acc)
  | (pfx, .ok xs) :: rest =>
    match tagDirectLoop dry pfx xs st acc with
    | (st1, acc1, true) => (bumpFailed st1, acc1)
    | (st1, acc1, false) => tagDirectKind dry rest st1 acc1

/-- Sequencing of several Resource-Groups blocks under one `try` with a
single kind-level `except ClientError` (the structure of
`tag_rds_resources`). -/
def tagRgKind (dry : Bool) (groups : List (String × EnumRes RgItem))
    (st : TagState) (acc : List String) : TagState × List String :=
  match groups with
  | [] => (st, acc)
  | (_, .err) :: _ => (bumpFailed st, acc)
  | (pfx, .ok xs) :: rest =>
    let p := tagRgLoop dry pfx xs st acc
    tagRgKind dry rest p.1 p.2

/-- One lookup-then-Resource-Groups block under a kind-level handler (the
structure of `tag_dynamodb_tables` and `tag_eks_clusters`). -/
def tagPreKind (dry : Bool) (pfx : String) (e : EnumRes PreItem)
    (st : TagState) : TagState × List String :=
  match e with
  | .err => (bumpFailed st, [])
  | .ok xs =>
    match tagPreRgLoop dry pfx xs st [] with
    | (st1, acc1, true) => (bumpFailed st1, acc1)
    | (st1, acc1, false) => (st1, acc1)

/-- `ResourceTagger.tag_ec2_resources` (lines 88-163): instances, volumes,
snapshots and transit gateways tagged by direct `create_tags` calls under a
single kind-level `except ClientError`. -/
def tag_ec2_resources (dry : Bool)
    (instances volumes snapshots transitGateways : EnumRes DirectItem)
    (st : TagState) : TagState × List String :=
  tagDirectKind dry
    [("ec2-instance", instances), ("ebs-volume", volumes),
     ("ebs-snapshot", snapshots), ("transit-gateway", transitGateways)] st []

/-- `ResourceTagger.tag_s3_buckets` (lines 165-211). -/
def tag_s3_buckets (dry : Bool) (region tagKey tagValue : String)
    (e : EnumRes Bucket) (st : TagState) : TagState × List String :=
  match e with
  | .err => (bumpFailed st, [])
  | .ok bs => s3Loop dry region tagKey tagValue bs st []

/-- `ResourceTagger.tag_lambda_functions` (lines 213-229). -/
def tag_lambda_functions (dry : Bool) (e : EnumRes RgItem)
    (st : TagState) : TagState × List String :=
  tagRgKind dry [("lambda", e)] st []

/-- `ResourceTagger.tag_rds_resources` (lines 231-257). -/
def tag_rds_resources (dry : Bool) (instances clusters : EnumRes RgItem)
    (st : TagState) : TagState × List String :=
  tagRgKind dry [("rds-instance", instances), ("rds-cluster", clusters)] st []

/-- `ResourceTagger.tag_dynamodb_tables` (lines 259-276). -/
def tag_dynamodb_tables (dry : Bool) (e : EnumRes PreItem)
    (st : TagState) : TagState × List String :=
  tagPreKind dry "dynamodb" e st

/-- `ResourceTagger.tag_ecs_resources` (lines 278-301). -/
def tag_ecs_resources (dry : Bool) (e : EnumRes EcsCluster)
    (st : TagState) : TagState × List String :=
  match e with
  | .err => (bumpFailed st, [])
  | .ok cs =>
    match tagEcsLoop dry cs st [] with
    | (st1, acc1, true) => (bumpFailed st1, acc1)
    | (st1, acc1, false) => (st1, acc1)

/-- `ResourceTagger.tag_eks_clusters` (lines 303-320). -/
def tag_eks_clusters (dry : Bool) (e : EnumRes PreItem)
    (st : TagState) : TagState × List String :=
  tagPreKind dry "eks" e st

/-- `ResourceTagger.tag_elasticache_resources` (lines 322-347). -/
def tag_elasticache_resources (dry : Bool)
    (cacheClusters replicationGroups : EnumRes CacheItem)
    (st : TagState) : TagState × List String :=
  match cacheClusters with
  | .err => (bumpFailed st, [])
  | .ok xs =>
    let p := tagCacheLoop dry "elasticache-cluster" xs st []
    match replicationGroups with
    | .err => (bumpFailed p.1, p.2)
    | .ok ys => tagCacheLoop dry "elasticache-rg" ys p.1 p.2

/-- `ResourceTagger.tag_load_balancers` (lines 349-383): ALB/NLB via the
Resource Groups path, classic ELB via direct `add_tags`, both under one
kind-level handler. -/
def tag_load_balancers (dry : Bool) (v2 : EnumRes RgItem)
    (classic : EnumRes DirectItem) (st : TagState) : TagState × List String :=
  match v2 with
  | .err => (bumpFailed st, [])
  | .ok xs =>
    let p := tagRgLoop dry "alb-nlb" xs st []
    match classic with
    | .err => (bumpFailed p.1, p.2)
    | .ok ys =>
      match tagDirectLoop dry "classic-lb" ys p.1 p.2 with
      | (st2, acc2, true) => (bumpFailed st2, acc2)
      | (st2, acc2, false) => (st2, acc2)

/-- The five sub-service environments of `tag_additional_services`. -/
structure AdditionalEnv where
  sns : EnumRes RgItem
  sqs : EnumRes PreItem
  stepfunctions : EnumRes RgItem
  secrets : EnumRes RgItem
  efs : EnumRes PreItem
deriving DecidableEq

/-- A sub-service block of `tag_additional_services` on the plain Resource
Groups path: note its `except ClientError` only logs -- it does *not*
increment `failed`. -/
def subRg (dry : Bool) (pfx : String) (e : EnumRes RgItem)
    (st : TagState) (acc : List String) : TagState × List String :=
  match e with
  | .err => (st, acc)
  | .ok xs => tagRgLoop dry pfx xs st acc

/-- A sub-service block of `tag_additional_services` with a per-item lookup
call (sqs, efs): a lookup `ClientError` aborts the sub-service but, like the
enumeration error, is only logged, never counted. -/
def subPre (dry : Bool) (pfx : String) (e : EnumRes PreItem)
    (st : TagState) (acc : List String) : TagState × List String :=
  match e with
  | .err => (st, acc)
  | .ok xs =>
    match tagPreRgLoop dry pfx xs st acc with
    | (st1, acc1, _) => (st1, acc1)

/-- `ResourceTagger.tag_additional_services` (lines 385-450): SNS, SQS,
Step Functions, Secrets Manager and EFS, each under its own `try` whose
`except ClientError` block only logs the error. -/
def tag_additional_services (dry : Bool) (env : AdditionalEnv)
    (st : TagState) : TagState × List String :=
  let p1 := subRg dry "sns" env.sns st []
  let p2 := subPre dry "sqs" env.sqs p1.1 p1.2
  let p3 := subRg dry "stepfunctions" env.stepfunctions p2.1 p2.2
  let p4 := subRg dry "secret" env.secrets p3.1 p3.2
  subPre dry "efs" env.efs p4.1 p4.2

/-- The per-kind environments of one `ResourceTagger` run: everything the
provider would answer during one region pass. -/
structure RegionEnv where
  ec2Instances : EnumRes DirectItem
  ec2Volumes : EnumRes DirectItem
  ec2Snapshots : EnumRes DirectItem
  ec2TransitGateways : EnumRes DirectItem
  s3 : EnumRes Bucket
  lambdaFunctions : EnumRes RgItem
  rdsInstances : EnumRes RgItem
  rdsClusters : EnumRes RgItem
  dynamodb : EnumRes PreItem
  ecs : EnumRes EcsCluster
  eks : EnumRes PreItem
  cacheClusters : EnumRes CacheItem
  replicationGroups : EnumRes CacheItem
  elbV2 : EnumRes RgItem
  elbClassic : EnumRes DirectItem
  additional : AdditionalEnv
deriving DecidableEq

/-- The keys of the `service_methods` dictionary of `tag_all_resources`
(lines 456-467), in insertion order. -/
def allServiceNames : List String :=
  ["ec2", "s3", "lambda", "rds", "dynamodb", "ecs", "eks",
   "elasticache", "elb", "additional"]

/-- The service filter of `tag_all_resources` (lines 470-471): a Python
`if services:` guard, so an *empty* requested list is falsy and disables
filtering; unknown names are silently dropped by the intersection. -/
def selectedServices (services : Option (List String)) : List String :=
  match services with
  | none => allServiceNames
  | some l =>
    if l.isEmpty then allServiceNames
    else allServiceNames.filter (fun k => l.contains k)

/-- Dispatch of one `service_methods` entry. -/
def runService (dry : Bool) (region tagKey tagValue : String)
    (env : RegionEnv) (name : String) (st : TagState) :
    TagState × List String :=
  if name = "ec2" then
    tag_ec2_resources dry env.ec2Instances env.ec2Volumes env.ec2Snapshots
      env.ec2TransitGateways st
  else if name = "s3" then
    tag_s3_buckets dry region tagKey tagValue env.s3 st
  else if name = "lambda" then
    tag_lambda_functions dry env.lambdaFunctions st
  else if name = "rds" then
    tag_rds_resources dry env.rdsInstances env.rdsClusters st
  else if name = "dynamodb" then
    tag_dynamodb_tables dry env.dynamodb st
  else if name = "ecs" then
    tag_ecs_resources dry env.ecs st
  else if name = "eks" then
    tag_eks_clusters dry env.eks st
  else if name = "elasticache" then
    tag_elasticache_resources dry env.cacheClusters env.replicationGroups st
  else if name = "elb" then
    tag_load_balancers dry env.elbV2 env.elbClassic st
  else if name = "additional" then
    tag_additional_services dry env.additional st
  else (st, [])

/-- The dispatch loop of `tag_all_resources` (lines 473-480): each selected
kind runs to completion and contributes an `all_results[name]` entry; our
embedded methods handle their `ClientError`s internally, so the surrounding
`except Exception` never fires. -/
def runServices (dry : Bool) (region tagKey tagValue : String)
    (env : RegionEnv) (names : List String) (st : TagState)
    (acc : List (String × List String)) :
    TagState × List (String × List String) :=
  match names with
  | [] => (st, acc)
  | n :: rest =>
    let r := runService dry region tagKey tagValue env n st
    runServices dry region tagKey tagValue env rest r.1 (acc ++ [(n, r.2)])

/-- The per-region result dictionary returned by `tag_all_resources`
(lines 482-486). -/
structure RegionResult where
  region : String
  resources : List (String × List String)
  statistics : Stats
deriving DecidableEq

/-- `ResourceTagger.tag_all_resources` (lines 452-486).  Besides the result
dictionary we return the final `TagState` so the instrumentation
(`mutCalls`, `s3Writes`) stays observable. -/
def tag_all_resources (dry : Bool) (region tagKey tagValue : String)
    (env : RegionEnv) (services : Option (List String)) (st : TagState) :
    RegionResult × TagState :=
  let r := runServices dry region tagKey tagValue env
    (selectedServices services) st []
  (⟨region, r.2, r.1.stats⟩, r.1)

/-- `process_region` (lines 489-495): a fresh `ResourceTagger` for the
region, then `tag_all_resources`. -/
def process_region (region tagKey tagValue : String) (dry : Bool)
    (services : Option (List String)) (env : RegionEnv) :
    RegionResult × TagState :=
  tag_all_resources dry region tagKey tagValue env services initState

/-- The process-wide configuration read from `os.environ`
(lines 37-39, 520-524): each field is the raw environment variable, `none`
when unset. -/
structure EnvConfig where
  TAG_KEY : Option String
  TAG_VALUE : Option String
  DRY_RUN : Option String
  TARGET_REGIONS : Option String
  AWS_REGION : Option String

/-- `TAG_KEY = os.environ.get('TAG_KEY', 'aws-apn-id')` (line 37). -/
def envTagKey (c : EnvConfig) : String := c.TAG_KEY.getD "aws-apn-id"

/-- `TAG_VALUE = os.environ.get('TAG_VALUE', '...')` (line 38). -/
def envTagValue (c : EnvConfig) : String :=
  c.TAG_VALUE.getD "pc:3jtjsihjubajawpl401j5b27s"

/-- `DRY_RUN = os.environ.get('DRY_RUN', 'false').lower() == 'true'`
(line 39). -/
def envDryRun (c : EnvConfig) : Bool :=
  (c.DRY_RUN.getD "false").toLower == "true"

/-- The invocation event (handler docstring): every key optional. -/
structure Event where
  dry_run : Option Bool
  tag_key : Option String
  tag_value : Option String
  regions : Option (List String)
  services : Option (List String)

/-- Region resolution of `lambda_handler` (lines 517-524): explicit event
list, else `TARGET_REGIONS` split on commas, else the ambient
`AWS_REGION` (defaulting to us-east-1). -/
def resolveRegions (cfg : EnvConfig) (event : Event) : List String :=
  match event.regions with
  | some rs => rs
  | none =>
    match cfg.TARGET_REGIONS with
    | some s => s.splitOn ","
    | none => [cfg.AWS_REGION.getD "us-east-1"]

/-- One entry of the handler's `results` list (lines 538-549): either the
region's result dictionary, or the degraded record
`{'region': r, 'error': e, 'statistics': {'total': 0, 'tagged': 0,
'failed': 1}}` built when the region task raised (note: it carries no
`skipped` key). -/
inductive RegionRecord
  | ok (r : RegionResult)
  | taskFailed (region : String) (err : String)
deriving DecidableEq

/-- `r['statistics']['total']` of a results entry. -/
def recordTotal : RegionRecord → Nat
  | .ok r => r.statistics.total
  | .taskFailed _ _ => 0

/-- `r['statistics']['tagged']` of a results entry. -/
def recordTagged : RegionRecord → Nat
  | .ok r => r.statistics.tagged
  | .taskFailed _ _ => 0

/-- `r['statistics']['failed']` of a results entry. -/
def recordFailed : RegionRecord → Nat
  | .ok r => r.statistics.failed
  | .taskFailed _ _ => 1

/-- The aggregated statistics dictionary of lines 552-556: only `total`,
`tagged` and `failed` are summed -- the aggregate has no `skipped` field. -/
structure GlobalStats where
  total : Nat
  tagged : Nat
  failed : Nat
deriving DecidableEq

/-- `total_stats = {...sum(...) for r in results}` (lines 552-556). -/
def aggregateStats (rs : List RegionRecord) : GlobalStats :=
  ⟨(rs.map recordTotal).sum, (rs.map recordTagged).sum,
   (rs.map recordFailed).sum⟩

/-- The response dictionary of lines 558-567. -/
structure Response where
  statusCode : Nat
  message : String
  dry_run : Bool
  regions_processed : Nat
  total_statistics : GlobalStats
  region_details : List RegionRecord
deriving DecidableEq

/-- `lambda_handler` (lines 498-571).  `world` is the provider: for each
region either the environment its task observes, or the error text of an
exception that escapes `process_region` (caught at lines 543-549).
`ThreadPoolExecutor(max_workers=min(len(regions), 5))` raises `ValueError`
when `max_workers` is 0, which we surface as `Except.error`; the pool only
affects completion order, which we normalise to submission order since the
aggregation is order-independent. -/
def lambda_handler (cfg : EnvConfig) (event : Event)
    (world : String → Except String RegionEnv) : Except String Response :=
  let dry := event.dry_run.getD (envDryRun cfg)
  let tagKey := event.tag_key.getD (envTagKey cfg)
  let tagValue := event.tag_value.getD (envTagValue cfg)
  let regions := resolveRegions cfg event
  if regions.length.min 5 = 0 then
    Except.error "ValueError: max_workers must be greater than 0"
  else
    let results := regions.map (fun r =>
      match world r with
      | Except.ok env =>
        RegionRecord.ok (process_region r tagKey tagValue dry
          event.services env).1
      | Except.error e => RegionRecord.taskFailed r e)
    Except.ok
      ⟨200, "AWS PRM tagging completed", dry, regions.length,
       aggregateStats results, results⟩

/-! ### Environment predicates and observers -/

/-- The enumeration (list/describe) call of a kind succeeded. -/
def enumListed {α : Type} : EnumRes α → Bool
  | .ok _ => true
  | .err => false

/-- Enumeration succeeded and every per-item lookup call succeeded. -/
def preAllOk : EnumRes PreItem → Bool
  | .ok xs => xs.all (fun i => i.pre == CallOutcome.ok)
  | .err => false

/-- `list_buckets` succeeded and no `get_bucket_location` call raised. -/
def bucketsListedOk : EnumRes Bucket → Bool
  | .ok bs => bs.all (fun b => !b.locErr)
  | .err => false

/-- `list_clusters` succeeded and every nested `list_services` call
succeeded. -/
def ecsListedOk : EnumRes EcsCluster → Bool
  | .ok cs => cs.all (fun c => enumListed c.services)
  | .err => false

/-- Every enumeration of the additional sub-services succeeded. -/
def additionalListedOk (a : AdditionalEnv) : Bool :=
  enumListed a.sns && preAllOk a.sqs && enumListed a.stepfunctions &&
  enumListed a.secrets && preAllOk a.efs

/-- Every enumeration call of the whole region pass succeeded
("enumeration itself succeeds" in the spec's dry-run property). -/
def regionEnumOk (e : RegionEnv) : Bool :=
  enumListed e.ec2Instances && enumListed e.ec2Volumes &&
  enumListed e.ec2Snapshots && enumListed e.ec2TransitGateways &&
  bucketsListedOk e.s3 && enumListed e.lambdaFunctions &&
  enumListed e.rdsInstances && enumListed e.rdsClusters &&
  preAllOk e.dynamodb && ecsListedOk e.ecs && preAllOk e.eks &&
  enumListed e.cacheClusters && enumListed e.replicationGroups &&
  enumListed e.elbV2 && enumListed e.elbClassic &&
  additionalListedOk e.additional

/-- Enumeration succeeded and every direct mutating call succeeded. -/
def directAllOk : EnumRes DirectItem → Bool
  | .ok xs => xs.all (fun i => i.outcome == CallOutcome.ok)
  | .err => false

/-- `list_buckets` succeeded, no `get_bucket_location` raised, and no
`put_bucket_tagging` raised. -/
def bucketsOnPath : EnumRes Bucket → Bool
  | .ok bs => bs.all (fun b => !b.locErr && b.putOutcome == CallOutcome.ok)
  | .err => false

/-- Every enumeration call of the region pass succeeded and every failure
that occurs is a per-resource `ClientError` on the Resource Groups Tagging
API path (EC2 `create_tags`, classic-ELB `add_tags` and S3
`put_bucket_tagging` all succeed; Resource Groups outcomes are
unconstrained). -/
def regionOnPath (e : RegionEnv) : Bool :=
  directAllOk e.ec2Instances && directAllOk e.ec2Volumes &&
  directAllOk e.ec2Snapshots && directAllOk e.ec2TransitGateways &&
  bucketsOnPath e.s3 && enumListed e.lambdaFunctions &&
  enumListed e.rdsInstances && enumListed e.rdsClusters &&
  preAllOk e.dynamodb && ecsListedOk e.ecs && preAllOk e.eks &&
  enumListed e.cacheClusters && enumListed e.replicationGroups &&
  enumListed e.elbV2 && directAllOk e.elbClassic &&
  additionalListedOk e.additional

/-- The invariant claimed by the spec for every statistics record:
`total == tagged + failed + skipped`. -/
def statsOk (s : Stats) : Prop :=
  s.total = s.tagged + s.failed + s.skipped

/-- Number of items whose Resource Groups tagging call succeeds. -/
def countOk (items : List RgItem) : Nat :=
  (items.filter (fun i => i.outcome == CallOutcome.ok)).length

/-- Number of items whose Resource Groups tagging call raises
`ClientError`. -/
def countErr (items : List RgItem) : Nat :=
  (items.filter (fun i => i.outcome == CallOutcome.clientError)).length

/-- Total number of resource identifiers over all per-kind result lists. -/
def sumLens (l : List (String × List String)) : Nat :=
  (l.map (fun p => p.2.length)).sum

/-- The status code of the handler response, `none` when the handler
raised. -/
def responseStatus : Except String Response → Option Nat
  | .ok r => some r.statusCode
  | .error _ => none

/-! ### Concrete environments used by counterexamples and witnesses -/

/-- A region in which every enumeration succeeds and finds nothing. -/
def emptyEnv : RegionEnv :=
  ⟨.ok [], .ok [], .ok [], .ok [], .ok [], .ok [], .ok [], .ok [],
   .ok [], .ok [], .ok [], .ok [], .ok [], .ok [], .ok [],
   ⟨.ok [], .ok [], .ok [], .ok [], .ok []⟩⟩

/-- A configuration with no environment variable set. -/
def cfg0 : EnvConfig := ⟨none, none, none, none, none⟩

/-! ### State-delta helpers -/

/-- Add `n` to `total` only (the net effect of `n` dry-run considerations). -/
def addTotal (st : TagState) (n : Nat) : TagState :=
  ⟨⟨st.stats.total + n, st.stats.tagged, st.stats.failed, st.stats.skipped⟩,
   st.mutCalls, st.s3Writes⟩

/-- Add `n` to `total`, `tagged` and `mutCalls` (the net effect of `n`
successful direct tag mutations). -/
def addTT (st : TagState) (n : Nat) : TagState :=
  ⟨⟨st.stats.total + n, st.stats.tagged + n, st.stats.failed,
    st.stats.skipped⟩, st.mutCalls + n, st.s3Writes⟩

lemma addTotal_zero (st : TagState) : addTotal st 0 = st := by
  cases st with
  | mk s m w => cases s; rfl

lemma addTT_zero (st : TagState) : addTT st 0 = st := by
  cases st with
  | mk s m w => cases s; rfl

lemma bumpTotal_eq (st : TagState) : bumpTotal st = addTotal st 1 := rfl

lemma addTotal_addTotal (st : TagState) (m n : Nat) :
    addTotal (addTotal st m) n = addTotal st (m + n) := by
  simp [addTotal, Nat.add_assoc]

lemma addTotal_bumpTotal (st : TagState) (n : Nat) :
    addTotal (bumpTotal st) n = addTotal st (1 + n) := by
  rw [bumpTotal_eq, addTotal_addTotal]

lemma addTT_succ (st : TagState) (n : Nat) :
    addTT (bumpTotal (bumpTagged (bumpMut st))) n = addTT st (n + 1) := by
  simp [addTT, bumpTotal, bumpTagged, bumpMut]
  omega

/-! ### Resource Groups loop specifications -/

lemma tagRgLoop_true_spec (pfx : String) (items : List RgItem) :
    ∀ st acc, tagRgLoop true pfx items st acc =
      (addTotal st items.length,
       acc ++ items.map (fun i => pfx ++ ":" ++ i.name)) := by
  induction items with
  | nil => intro st acc; simp [tagRgLoop, addTotal_zero]
  | cons i rest ih =>
    intro st acc
    simp only [tagRgLoop, tag_using_resource_groups_api, if_true, ih]
    simp [addTotal, bumpTotal, List.append_assoc,
      Nat.add_comm, Nat.add_assoc, Nat.add_left_comm]

lemma tagRgLoop_false_spec (pfx : String) (items : List RgItem) :
    ∀ st acc, tagRgLoop false pfx items st acc =
      (⟨⟨st.stats.total + items.length, st.stats.tagged + countOk items,
         st.stats.failed + countErr items, st.stats.skipped⟩,
        st.mutCalls + items.length, st.s3Writes⟩,
       acc ++ (items.filter
         (fun i => i.outcome == CallOutcome.ok)).map
         (fun i => pfx ++ ":" ++ i.name)) := by
  induction items with
  | nil =>
    intro st acc
    simp only [tagRgLoop, countOk, countErr, List.filter_nil,
      List.length_nil, List.map_nil, List.append_nil, Nat.add_zero]
  | cons i rest ih =>
    intro st acc
    cases h : i.outcome with
    | ok =>
      simp only [tagRgLoop, tag_using_resource_groups_api, h, ih]
      simp [countOk, countErr, List.filter_cons, h, bumpTagged, bumpTotal,
        bumpMut, List.append_assoc, Nat.add_comm, Nat.add_assoc,
        Nat.add_left_comm]
    | clientError =>
      simp only [tagRgLoop, tag_using_resource_groups_api, h, ih]
      simp [countOk, countErr, List.filter_cons, h, bumpFailed, bumpTotal,
        bumpMut, List.append_assoc, Nat.add_comm, Nat.add_assoc,
        Nat.add_left_comm]

lemma countOk_add_countErr (items : List RgItem) :
    countOk items + countErr items = items.length := by
  induction items with
  | nil => simp [countOk, countErr]
  | cons i rest ih =>
    cases h : i.outcome <;>
      · simp only [countOk, countErr, List.filter_cons, h] at *
        simp_all
        omega

lemma skipped_rgApi (dry : Bool) (o : CallOutcome) (st : TagState) :
    ((tag_using_resource_groups_api dry o st).2).stats.skipped =
      st.stats.skipped := by
  cases dry <;> cases o <;> rfl

lemma statsOk_rgApi (o : CallOutcome) (st : TagState) (h : statsOk st.stats) :
    statsOk ((tag_using_resource_groups_api false o st).2).stats := by
  cases o <;>
    · simp [tag_using_resource_groups_api, bumpTagged, bumpTotal, bumpMut,
        bumpFailed, statsOk] at *
      omega

lemma tagRgLoop_skipped (dry : Bool) (pfx : String) (items : List RgItem) :
    ∀ st acc, ((tagRgLoop dry pfx items st acc).1).stats.skipped =
      st.stats.skipped := by
  induction items with
  | nil => intro st acc; rfl
  | cons i rest ih =>
    intro st acc
    simp only [tagRgLoop]
    split <;> rw [ih] <;> exact skipped_rgApi _ _ _

lemma tagRgLoop_false_statsOk (pfx : String) (items : List RgItem)
    (st : TagState) (acc : List String) (h : statsOk st.stats) :
    statsOk ((tagRgLoop false pfx items st acc).1).stats := by
  rw [tagRgLoop_false_spec]
  have hc := countOk_add_countErr items
  simp only [statsOk] at *
  omega

/-! ### Direct-call loop specifications (EC2 / classic ELB) -/

lemma tagDirectLoop_true_spec (pfx : String) (items : List DirectItem) :
    ∀ st acc, tagDirectLoop true pfx items st acc =
      (addTotal st items.length,
       acc ++ items.map (fun i => pfx ++ ":" ++ i.id), false) := by
  induction items with
  | nil => intro st acc; simp [tagDirectLoop, addTotal_zero]
  | cons i rest ih =>
    intro st acc
    simp only [tagDirectLoop, if_true, ih]
    simp [addTotal, bumpTotal, List.append_assoc,
      Nat.add_comm, Nat.add_assoc, Nat.add_left_comm]

lemma tagDirectLoop_allOk_spec (pfx : String) (items : List DirectItem)
    (h : items.all (fun i => i.outcome == CallOutcome.ok) = true) :
    ∀ st acc, tagDirectLoop false pfx items st acc =
      (addTT st items.length,
       acc ++ items.map (fun i => pfx ++ ":" ++ i.id), false) := by
  induction items with
  | nil => intro st acc; simp [tagDirectLoop, addTT_zero]
  | cons i rest ih =>
    intro st acc
    rw [List.all_cons, Bool.and_eq_true, beq_iff_eq] at h
    simp only [tagDirectLoop, h.1, ih h.2]
    simp [addTT, bumpTotal, bumpTagged, bumpMut, List.append_assoc,
      Nat.add_comm, Nat.add_assoc, Nat.add_left_comm]

lemma tagDirectLoop_firstErr (pfx : String) (xs : List DirectItem)
    (e : DirectItem) (ys : List DirectItem)
    (hx : xs.all (fun i => i.outcome == CallOutcome.ok) = true)
    (he : e.outcome = CallOutcome.clientError) :
    ∀ st acc, tagDirectLoop false pfx (xs ++ e :: ys) st acc =
      (bumpMut (addTT st xs.length),
       acc ++ xs.map (fun i => pfx ++ ":" ++ i.id), true) := by
  induction xs with
  | nil =>
    intro st acc
    simp [tagDirectLoop, he, addTT_zero]
  | cons i rest ih =>
    intro st acc
    rw [List.all_cons, Bool.and_eq_true, beq_iff_eq] at hx
    have hstep : tagDirectLoop false pfx ((i :: rest) ++ e :: ys) st acc =
        tagDirectLoop false pfx (rest ++ e :: ys)
          (bumpTotal (bumpTagged (bumpMut st)))
          (acc ++ [pfx ++ ":" ++ i.id]) := by
      simp [tagDirectLoop, hx.1]
    rw [hstep, ih hx.2]
    simp [addTT, bumpMut, bumpTotal, bumpTagged, List.append_assoc,
      Nat.add_comm, Nat.add_assoc, Nat.add_left_comm]

lemma tagDirectLoop_skipped (dry : Bool) (pfx : String)
    (items : List DirectItem) :
    ∀ st acc, ((tagDirectLoop dry pfx items st acc).1).stats.skipped =
      st.stats.skipped := by
  induction items with
  | nil => intro st acc; rfl
  | cons i rest ih =>
    intro st acc
    cases dry with
    | true =>
      simp only [tagDirectLoop, if_true, ih]
      simp [bumpTotal]
    | false =>
      cases h : i.outcome with
      | clientError => simp [tagDirectLoop, h, bumpMut]
      | ok =>
        have hstep : tagDirectLoop false pfx (i :: rest) st acc =
            tagDirectLoop false pfx rest
              (bumpTotal (bumpTagged (bumpMut st)))
              (acc ++ [pfx ++ ":" ++ i.id]) := by
          simp [tagDirectLoop, h]
        rw [hstep, ih]
        simp [bumpTotal, bumpTagged, bumpMut]

/-! ### Lookup-then-Resource-Groups loop specifications -/

/-- Number of pre-ok items whose Resource Groups call succeeds. -/
def countOkP (items : List PreItem) : Nat :=
  (items.filter (fun i => i.outcome == CallOutcome.ok)).length

/-- Number of pre-ok items whose Resource Groups call raises. -/
def countErrP (items : List PreItem) : Nat :=
  (items.filter (fun i => i.outcome == CallOutcome.clientError)).length

lemma tagPreRgLoop_true_spec (pfx : String) (items : List PreItem)
    (h : items.all (fun i => i.pre == CallOutcome.ok) = true) :
    ∀ st acc, tagPreRgLoop true pfx items st acc =
      (addTotal st items.length,
       acc ++ items.map (fun i => pfx ++ ":" ++ i.name), false) := by
  induction items with
  | nil => intro st acc; simp [tagPreRgLoop, addTotal_zero]
  | cons i rest ih =>
    intro st acc
    rw [List.all_cons, Bool.and_eq_true, beq_iff_eq] at h
    simp only [tagPreRgLoop, h.1, tag_using_resource_groups_api, if_true,
      ih h.2]
    simp [addTotal, bumpTotal, List.append_assoc,
      Nat.add_comm, Nat.add_assoc, Nat.add_left_comm]

lemma tagPreRgLoop_false_spec (pfx : String) (items : List PreItem)
    (h : items.all (fun i => i.pre == CallOutcome.ok) = true) :
    ∀ st acc, tagPreRgLoop false pfx items st acc =
      (⟨⟨st.stats.total + items.length, st.stats.tagged + countOkP items,
         st.stats.failed + countErrP items, st.stats.skipped⟩,
        st.mutCalls + items.length, st.s3Writes⟩,
       acc ++ (items.filter
         (fun i => i.outcome == CallOutcome.ok)).map
         (fun i => pfx ++ ":" ++ i.name), false) := by
  induction items with
  | nil =>
    intro st acc
    simp [tagPreRgLoop, countOkP, countErrP]
  | cons i rest ih =>
    intro st acc
    rw [List.all_cons, Bool.and_eq_true, beq_iff_eq] at h
    cases ho : i.outcome with
    | ok =>
      simp only [tagPreRgLoop, h.1, tag_using_resource_groups_api, ho,
        ih h.2]
      simp [countOkP, countErrP, List.filter_cons, ho, bumpTagged, bumpTotal,
        bumpMut, List.append_assoc, Nat.add_comm, Nat.add_assoc,
        Nat.add_left_comm]
    | clientError =>
      simp only [tagPreRgLoop, h.1, tag_using_resource_groups_api, ho,
        ih h.2]
      simp [countOkP, countErrP, List.filter_cons, ho, bumpFailed, bumpTotal,
        bumpMut, List.append_assoc, Nat.add_comm, Nat.add_assoc,
        Nat.add_left_comm]

lemma countOkP_add_countErrP (items : List PreItem) :
    countOkP items + countErrP items = items.length := by
  induction items with
  | nil => simp [countOkP, countErrP]
  | cons i rest ih =>
    cases h : i.outcome <;>
      · simp only [countOkP, countErrP, List.filter_cons, h] at *
        simp_all
        omega

lemma tagPreRgLoop_skipped (dry : Bool) (pfx : String)
    (items : List PreItem) :
    ∀ st acc, ((tagPreRgLoop dry pfx items st acc).1).stats.skipped =
      st.stats.skipped := by
  induction items with
  | nil => intro st acc; rfl
  | cons i rest ih =>
    intro st acc
    cases hp : i.pre with
    | clientError => simp [tagPreRgLoop, hp]
    | ok =>
      simp only [tagPreRgLoop, hp]
      split <;> rw [ih] <;> exact skipped_rgApi _ _ _

/-! ### ElastiCache loop specifications -/

/-- Number of items carrying an `ARN` key. -/
def countSelC (items : List CacheItem) : Nat :=
  (items.filter (fun i => i.arn.isSome)).length

/-- Number of ARN-carrying items whose tagging call succeeds. -/
def countOkC (items : List CacheItem) : Nat :=
  (items.filter (fun i => i.arn == some CallOutcome.ok)).length

/-- Number of ARN-carrying items whose tagging call raises. -/
def countErrC (items : List CacheItem) : Nat :=
  (items.filter (fun i => i.arn == some CallOutcome.clientError)).length

lemma countOkC_add_countErrC (items : List CacheItem) :
    countOkC items + countErrC items = countSelC items := by
  induction items with
  | nil => simp [countOkC, countErrC, countSelC]
  | cons i rest ih =>
    rcases h : i.arn with _ | o
    · simp only [countOkC, countErrC, countSelC, List.filter_cons, h] at *
      simp_all
    · cases o <;>
        · simp only [countOkC, countErrC, countSelC, List.filter_cons, h] at *
          simp_all
          omega

lemma tagCacheLoop_true_spec (pfx : String) (items : List CacheItem) :
    ∀ st acc, tagCacheLoop true pfx items st acc =
      (addTotal st (countSelC items),
       acc ++ (items.filter (fun i => i.arn.isSome)).map
         (fun i => pfx ++ ":" ++ i.name)) := by
  induction items with
  | nil => intro st acc; simp [tagCacheLoop, countSelC, addTotal_zero]
  | cons i rest ih =>
    intro st acc
    rcases h : i.arn with _ | o
    · simp only [tagCacheLoop, h, ih]
      simp [countSelC, List.filter_cons, h]
    · simp only [tagCacheLoop, h, tag_using_resource_groups_api, if_true, ih]
      simp [countSelC, List.filter_cons, h, addTotal, bumpTotal,
        List.append_assoc, Nat.add_comm, Nat.add_assoc, Nat.add_left_comm]

lemma tagCacheLoop_false_spec (pfx : String) (items : List CacheItem) :
    ∀ st acc, tagCacheLoop false pfx items st acc =
      (⟨⟨st.stats.total + countSelC items, st.stats.tagged + countOkC items,
         st.stats.failed + countErrC items, st.stats.skipped⟩,
        st.mutCalls + countSelC items, st.s3Writes⟩,
       acc ++ (items.filter
         (fun i => i.arn == some CallOutcome.ok)).map
         (fun i => pfx ++ ":" ++ i.name)) := by
  induction items with
  | nil =>
    intro st acc
    simp [tagCacheLoop, countSelC, countOkC, countErrC]
  | cons i rest ih =>
    intro st acc
    rcases h : i.arn with _ | o
    · simp only [tagCacheLoop, h, ih]
      simp [countSelC, countOkC, countErrC, List.filter_cons, h]
    · cases o with
      | ok =>
        simp only [tagCacheLoop, h, tag_using_resource_groups_api, ih]
        simp [countSelC, countOkC, countErrC, List.filter_cons, h,
          bumpTagged, bumpTotal, bumpMut, List.append_assoc,
          Nat.add_comm, Nat.add_assoc, Nat.add_left_comm]
      | clientError =>
        simp only [tagCacheLoop, h, tag_using_resource_groups_api, ih]
        simp [countSelC, countOkC, countErrC, List.filter_cons, h,
          bumpFailed, bumpTotal, bumpMut, List.append_assoc,
          Nat.add_comm, Nat.add_assoc, Nat.add_left_comm]

lemma tagCacheLoop_skipped (dry : Bool) (pfx : String)
    (items : List CacheItem) :
    ∀ st acc, ((tagCacheLoop dry pfx items st acc).1).stats.skipped =
      st.stats.skipped := by
  induction items with
  | nil => intro st acc; rfl
  | cons i rest ih =>
    intro st acc
    rcases h : i.arn with _ | o
    · simp only [tagCacheLoop, h]
      exact ih st acc
    · simp only [tagCacheLoop, h]
      split <;> rw [ih] <;> exact skipped_rgApi _ _ _

/-! ### ECS loop specifications -/

/-- The items of a successful enumeration ([] for a failed one). -/
def getOk {α : Type} : EnumRes α → List α
  | .ok xs => xs
  | .err => []

/-- The identifiers a dry run appends for a list of ECS clusters: each
cluster followed by its services. -/
def ecsDryNames : List EcsCluster → List String
  | [] => []
  | c :: rest =>
    ("ecs-cluster:" ++ c.name) ::
      ((getOk c.services).map (fun i => "ecs-service:" ++ i.name) ++
        ecsDryNames rest)

lemma tagEcsLoop_true_spec (clusters : List EcsCluster)
    (h : clusters.all (fun c => enumListed c.services) = true) :
    ∀ st acc, tagEcsLoop true clusters st acc =
      (addTotal st (ecsDryNames clusters).length,
       acc ++ ecsDryNames clusters, false) := by
  induction clusters with
  | nil => intro st acc; simp [tagEcsLoop, ecsDryNames, addTotal_zero]
  | cons c rest ih =>
    intro st acc
    rw [List.all_cons, Bool.and_eq_true] at h
    rcases hs : c.services with svcs | _
    · simp only [tagEcsLoop, tag_using_resource_groups_api, if_true, hs,
        tagRgLoop_true_spec, ih h.2]
      simp [ecsDryNames, getOk, hs, addTotal, bumpTotal, List.append_assoc,
        Nat.add_comm, Nat.add_assoc, Nat.add_left_comm]
    · rw [hs] at h
      simp [enumListed] at h

lemma tagEcsLoop_false_ok (clusters : List EcsCluster)
    (h : clusters.all (fun c => enumListed c.services) = true) :
    ∀ st acc, (tagEcsLoop false clusters st acc).2.2 = false ∧
      (statsOk st.stats →
        statsOk ((tagEcsLoop false clusters st acc).1).stats) := by
  induction clusters with
  | nil => intro st acc; exact ⟨rfl, fun hst => hst⟩
  | cons c rest ih =>
    intro st acc
    rw [List.all_cons, Bool.and_eq_true] at h
    rcases hs : c.services with svcs | _
    · simp only [tagEcsLoop, hs]
      refine ⟨(ih h.2 _ _).1, fun hst => (ih h.2 _ _).2 ?_⟩
      exact tagRgLoop_false_statsOk _ _ _ _ (statsOk_rgApi _ _ hst)
    · rw [hs] at h
      simp [enumListed] at h

lemma tagEcsLoop_skipped (dry : Bool) (clusters : List EcsCluster) :
    ∀ st acc, ((tagEcsLoop dry clusters st acc).1).stats.skipped =
      st.stats.skipped := by
  induction clusters with
  | nil => intro st acc; rfl
  | cons c rest ih =>
    intro st acc
    rcases hs : c.services with svcs | _
    · simp only [tagEcsLoop, hs]
      rw [ih, tagRgLoop_skipped]
      exact skipped_rgApi _ _ _
    · simp only [tagEcsLoop, hs]
      exact skipped_rgApi _ _ _

/-! ### S3 loop specifications -/

lemma s3Loop_true_spec (region tagKey tagValue : String)
    (buckets : List Bucket)
    (h : buckets.all (fun b => !b.locErr) = true) :
    ∀ st acc, s3Loop true region tagKey tagValue buckets st acc =
      (addTotal st
        ((buckets.filter (fun b => bucketSelected region b)).length),
       acc ++ (buckets.filter (fun b => bucketSelected region b)).map
         (fun b => "s3-bucket:" ++ b.name)) := by
  induction buckets with
  | nil => intro st acc; simp [s3Loop, addTotal_zero]
  | cons b rest ih =>
    intro st acc
    rw [List.all_cons, Bool.and_eq_true, Bool.not_eq_eq_eq_not,
      Bool.not_true] at h
    cases hsel : bucketSelected region b with
    | true =>
      simp only [s3Loop, h.1, hsel, if_true, ih h.2]
      simp [List.filter_cons, hsel, addTotal, bumpTotal, List.append_assoc,
        Nat.add_comm, Nat.add_assoc, Nat.add_left_comm]
    | false =>
      simp only [s3Loop, h.1, hsel, ih h.2]
      simp [List.filter_cons, hsel]

lemma s3Loop_false_statsOk (region tagKey tagValue : String)
    (buckets : List Bucket)
    (h : buckets.all
      (fun b => !b.locErr && b.putOutcome == CallOutcome.ok) = true) :
    ∀ st acc, statsOk st.stats →
      statsOk ((s3Loop false region tagKey tagValue buckets st acc).1).stats
    := by
  induction buckets with
  | nil => intro st acc hst; exact hst
  | cons b rest ih =>
    intro st acc hst
    rw [List.all_cons, Bool.and_eq_true, Bool.and_eq_true,
      Bool.not_eq_eq_eq_not, Bool.not_true, beq_iff_eq] at h
    cases hsel : bucketSelected region b with
    | true =>
      simp only [s3Loop, h.1.1, hsel, if_true, h.1.2]
      refine ih h.2 _ _ ?_
      simp [statsOk, bumpTagged, bumpTotal, recordWrite] at *
      omega
    | false =>
      simp only [s3Loop, h.1.1, hsel]
      exact ih h.2 _ _ hst

lemma s3Loop_skipped (dry : Bool) (region tagKey tagValue : String)
    (buckets : List Bucket) :
    ∀ st acc,
      ((s3Loop dry region tagKey tagValue buckets st acc).1).stats.skipped =
        st.stats.skipped := by
  induction buckets with
  | nil => intro st acc; rfl
  | cons b rest ih =>
    intro st acc
    cases hloc : b.locErr with
    | true =>
      simp only [s3Loop, hloc, if_true]
      rw [ih]
      simp [bumpFailed]
    | false =>
      cases hsel : bucketSelected region b with
      | false =>
        simp only [s3Loop, hloc, hsel]
        exact ih st acc
      | true =>
        cases dry with
        | true =>
          simp only [s3Loop, hloc, hsel, Bool.false_eq_true, if_false,
            eq_self_iff_true, if_true]
          rw [ih]
          simp [bumpTotal]
        | false =>
          cases hput : b.putOutcome with
          | ok =>
            simp only [s3Loop, hloc, hsel, hput, Bool.false_eq_true,
              if_false, eq_self_iff_true, if_true]
            rw [ih]
            simp [bumpTagged, bumpTotal, recordWrite]
          | clientError =>
            simp only [s3Loop, hloc, hsel, hput, Bool.false_eq_true,
              if_false, eq_self_iff_true, if_true]
            rw [ih]
            simp [bumpFailed, recordWrite]

/-! ### Kind-level lemmas -/

lemma statsOk_addTT (st : TagState) (n : Nat) (h : statsOk st.stats) :
    statsOk (addTT st n).stats := by
  simp [statsOk, addTT] at *
  omega

lemma tagCacheLoop_false_statsOk (pfx : String) (items : List CacheItem)
    (st : TagState) (acc : List String) (h : statsOk st.stats) :
    statsOk ((tagCacheLoop false pfx items st acc).1).stats := by
  rw [tagCacheLoop_false_spec]
  have hc := countOkC_add_countErrC items
  simp only [statsOk] at *
  omega

lemma tagPreRgLoop_false_statsOk_any (pfx : String) (items : List PreItem) :
    ∀ st acc, statsOk st.stats →
      statsOk ((tagPreRgLoop false pfx items st acc).1).stats := by
  induction items with
  | nil => intro st acc h; exact h
  | cons i rest ih =>
    intro st acc h
    cases hp : i.pre with
    | clientError => simpa [tagPreRgLoop, hp] using h
    | ok =>
      simp only [tagPreRgLoop, hp]
      split <;> exact ih _ _ (statsOk_rgApi _ _ h)

lemma tagPreRgLoop_false_noAbort (pfx : String) (items : List PreItem)
    (h : items.all (fun i => i.pre == CallOutcome.ok) = true)
    (st : TagState) (acc : List String) :
    (tagPreRgLoop false pfx items st acc).2.2 = false := by
  rw [tagPreRgLoop_false_spec _ _ h]

lemma tagDirectKind_true (groups : List (String × EnumRes DirectItem))
    (h : groups.all (fun g => enumListed g.2) = true) :
    ∀ st acc, ∃ l, tagDirectKind true groups st acc =
      (addTotal st l.length, acc ++ l) := by
  induction groups with
  | nil => intro st acc; exact ⟨[], by simp [tagDirectKind, addTotal_zero]⟩
  | cons g rest ih =>
    intro st acc
    obtain ⟨pfx, e⟩ := g
    rw [List.all_cons, Bool.and_eq_true] at h
    rcases e with xs | _
    · obtain ⟨l, hl⟩ := ih h.2 (addTotal st xs.length)
        (acc ++ List.map (fun i => pfx ++ ":" ++ i.id) xs)
      refine ⟨List.map (fun i => pfx ++ ":" ++ i.id) xs ++ l, ?_⟩
      simp only [tagDirectKind, tagDirectLoop_true_spec]
      rw [hl]
      simp [addTotal_addTotal, List.append_assoc]
    · simp [enumListed] at h

lemma tagRgKind_true (groups : List (String × EnumRes RgItem))
    (h : groups.all (fun g => enumListed g.2) = true) :
    ∀ st acc, ∃ l, tagRgKind true groups st acc =
      (addTotal st l.length, acc ++ l) := by
  induction groups with
  | nil => intro st acc; exact ⟨[], by simp [tagRgKind, addTotal_zero]⟩
  | cons g rest ih =>
    intro st acc
    obtain ⟨pfx, e⟩ := g
    rw [List.all_cons, Bool.and_eq_true] at h
    rcases e with xs | _
    · obtain ⟨l, hl⟩ := ih h.2 (addTotal st xs.length)
        (acc ++ List.map (fun i => pfx ++ ":" ++ i.name) xs)
      refine ⟨List.map (fun i => pfx ++ ":" ++ i.name) xs ++ l, ?_⟩
      simp only [tagRgKind, tagRgLoop_true_spec]
      rw [hl]
      simp [addTotal_addTotal, List.append_assoc]
    · simp [enumListed] at h

lemma tagPreKind_true (pfx : String) (e : EnumRes PreItem)
    (h : preAllOk e = true) (st : TagState) :
    ∃ l, tagPreKind true pfx e st = (addTotal st l.length, l) := by
  rcases e with xs | _
  · refine ⟨List.map (fun i => pfx ++ ":" ++ i.name) xs, ?_⟩
    simp only [tagPreKind, tagPreRgLoop_true_spec _ _ h]
    simp
  · simp [preAllOk] at h

lemma tag_s3_buckets_true (region tagKey tagValue : String)
    (e : EnumRes Bucket) (h : bucketsListedOk e = true) (st : TagState) :
    ∃ l, tag_s3_buckets true region tagKey tagValue e st =
      (addTotal st l.length, l) := by
  rcases e with bs | _
  · refine ⟨(bs.filter (fun b => bucketSelected region b)).map
      (fun b => "s3-bucket:" ++ b.name), ?_⟩
    simp only [tag_s3_buckets, s3Loop_true_spec _ _ _ bs h]
    simp
  · simp [bucketsListedOk] at h

lemma tag_ecs_true (e : EnumRes EcsCluster) (h : ecsListedOk e = true)
    (st : TagState) :
    ∃ l, tag_ecs_resources true e st = (addTotal st l.length, l) := by
  rcases e with cs | _
  · refine ⟨ecsDryNames cs, ?_⟩
    simp only [tag_ecs_resources, tagEcsLoop_true_spec cs h]
    simp
  · simp [ecsListedOk] at h

lemma tag_elasticache_true (cc rg : EnumRes CacheItem)
    (hc : enumListed cc = true) (hr : enumListed rg = true) (st : TagState) :
    ∃ l, tag_elasticache_resources true cc rg st =
      (addTotal st l.length, l) := by
  rcases cc with xs | _
  · rcases rg with ys | _
    · refine ⟨(xs.filter (fun i => i.arn.isSome)).map
        (fun i => "elasticache-cluster:" ++ i.name) ++
        (ys.filter (fun i => i.arn.isSome)).map
        (fun i => "elasticache-rg:" ++ i.name), ?_⟩
      simp only [tag_elasticache_resources, tagCacheLoop_true_spec]
      simp [countSelC, addTotal_addTotal]
    · simp [enumListed] at hr
  · simp [enumListed] at hc

lemma tag_load_balancers_true (v2 : EnumRes RgItem)
    (classic : EnumRes DirectItem) (hv : enumListed v2 = true)
    (hc : enumListed classic = true) (st : TagState) :
    ∃ l, tag_load_balancers true v2 classic st =
      (addTotal st l.length, l) := by
  rcases v2 with xs | _
  · rcases classic with ys | _
    · refine ⟨List.map (fun i => "alb-nlb:" ++ i.name) xs ++
        List.map (fun i => "classic-lb:" ++ i.id) ys, ?_⟩
      simp only [tag_load_balancers, tagRgLoop_true_spec,
        tagDirectLoop_true_spec]
      simp [addTotal_addTotal]
    · simp [enumListed] at hc
  · simp [enumListed] at hv

lemma subRg_true (pfx : String) (e : EnumRes RgItem) (st : TagState)
    (acc : List String) :
    ∃ l, subRg true pfx e st acc = (addTotal st l.length, acc ++ l) := by
  rcases e with xs | _
  · exact ⟨List.map (fun i => pfx ++ ":" ++ i.name) xs,
      by simp [subRg, tagRgLoop_true_spec]⟩
  · exact ⟨[], by simp [subRg, addTotal_zero]⟩

lemma tagPreRgLoop_true_exists (pfx : String) (items : List PreItem) :
    ∀ st acc, ∃ l ab, tagPreRgLoop true pfx items st acc =
      (addTotal st l.length, acc ++ l, ab) := by
  induction items with
  | nil =>
    intro st acc
    exact ⟨[], false, by simp [tagPreRgLoop, addTotal_zero]⟩
  | cons i rest ih =>
    intro st acc
    cases hp : i.pre with
    | clientError =>
      exact ⟨[], true, by simp [tagPreRgLoop, hp, addTotal_zero]⟩
    | ok =>
      obtain ⟨l, ab, hl⟩ := ih (bumpTotal st)
        (acc ++ [pfx ++ ":" ++ i.name])
      refine ⟨(pfx ++ ":" ++ i.name) :: l, ab, ?_⟩
      simp only [tagPreRgLoop, hp, tag_using_resource_groups_api, if_true]
      rw [hl]
      simp [addTotal_bumpTotal, List.append_assoc, Nat.add_comm]

lemma subPre_true (pfx : String) (e : EnumRes PreItem) (st : TagState)
    (acc : List String) :
    ∃ l, subPre true pfx e st acc = (addTotal st l.length, acc ++ l) := by
  rcases e with xs | _
  · obtain ⟨l, ab, hl⟩ := tagPreRgLoop_true_exists pfx xs st acc
    exact ⟨l, by simp [subPre, hl]⟩
  · exact ⟨[], by simp [subPre, addTotal_zero]⟩

lemma tag_additional_true (a : AdditionalEnv) (st : TagState) :
    ∃ l, tag_additional_services true a st = (addTotal st l.length, l) := by
  obtain ⟨l1, h1⟩ := subRg_true "sns" a.sns st []
  obtain ⟨l2, h2⟩ := subPre_true "sqs" a.sqs (addTotal st l1.length) l1
  obtain ⟨l3, h3⟩ := subRg_true "stepfunctions" a.stepfunctions
    (addTotal (addTotal st l1.length) l2.length) (l1 ++ l2)
  obtain ⟨l4, h4⟩ := subRg_true "secret" a.secrets
    (addTotal (addTotal (addTotal st l1.length) l2.length) l3.length)
    (l1 ++ l2 ++ l3)
  obtain ⟨l5, h5⟩ := subPre_true "efs" a.efs
    (addTotal (addTotal (addTotal (addTotal st l1.length) l2.length)
      l3.length) l4.length) (l1 ++ l2 ++ l3 ++ l4)
  refine ⟨l1 ++ l2 ++ l3 ++ l4 ++ l5, ?_⟩
  simp only [tag_additional_services]
  rw [List.nil_append] at h1
  rw [h1, h2, h3, h4, h5]
  simp [addTotal_addTotal, List.append_assoc, Nat.add_assoc]

/-! ### Kind-level statsOk preservation (non-dry, on-path) -/

lemma tagDirectKind_false_statsOk
    (groups : List (String × EnumRes DirectItem))
    (h : groups.all (fun g => directAllOk g.2) = true) :
    ∀ st acc, statsOk st.stats →
      statsOk ((tagDirectKind false groups st acc).1).stats := by
  induction groups with
  | nil => intro st acc hst; exact hst
  | cons g rest ih =>
    intro st acc hst
    obtain ⟨pfx, e⟩ := g
    rw [List.all_cons, Bool.and_eq_true] at h
    rcases e with xs | _
    · have hx : xs.all (fun i => i.outcome == CallOutcome.ok) = true := h.1
      simp only [tagDirectKind, tagDirectLoop_allOk_spec pfx xs hx]
      exact ih h.2 _ _ (statsOk_addTT _ _ hst)
    · simp [directAllOk] at h

lemma tagRgKind_false_statsOk (groups : List (String × EnumRes RgItem))
    (h : groups.all (fun g => enumListed g.2) = true) :
    ∀ st acc, statsOk st.stats →
      statsOk ((tagRgKind false groups st acc).1).stats := by
  induction groups with
  | nil => intro st acc hst; exact hst
  | cons g rest ih =>
    intro st acc hst
    obtain ⟨pfx, e⟩ := g
    rw [List.all_cons, Bool.and_eq_true] at h
    rcases e with xs | _
    · simp only [tagRgKind]
      exact ih h.2 _ _ (tagRgLoop_false_statsOk _ _ _ _ hst)
    · simp [enumListed] at h

lemma tagPreKind_false_statsOk (pfx : String) (e : EnumRes PreItem)
    (h : preAllOk e = true) (st : TagState) (hst : statsOk st.stats) :
    statsOk ((tagPreKind false pfx e st).1).stats := by
  rcases e with xs | _
  · have hx : xs.all (fun i => i.pre == CallOutcome.ok) = true := h
    rcases htl : tagPreRgLoop false pfx xs st [] with ⟨st1, acc1, ab⟩
    have hab : ab = false := by
      have := tagPreRgLoop_false_noAbort pfx xs hx st []
      rw [htl] at this
      exact this
    subst hab
    simp only [tagPreKind, htl]
    have := tagPreRgLoop_false_statsOk_any pfx xs st [] hst
    rw [htl] at this
    exact this
  · simp [preAllOk] at h

lemma tag_s3_buckets_false_statsOk (region tagKey tagValue : String)
    (e : EnumRes Bucket) (h : bucketsOnPath e = true) (st : TagState)
    (hst : statsOk st.stats) :
    statsOk ((tag_s3_buckets false region tagKey tagValue e st).1).stats := by
  rcases e with bs | _
  · exact s3Loop_false_statsOk _ _ _ bs h st [] hst
  · simp [bucketsOnPath] at h

lemma tag_ecs_false_statsOk (e : EnumRes EcsCluster)
    (h : ecsListedOk e = true) (st : TagState) (hst : statsOk st.stats) :
    statsOk ((tag_ecs_resources false e st).1).stats := by
  rcases e with cs | _
  · rcases htl : tagEcsLoop false cs st [] with ⟨st1, acc1, ab⟩
    have hok := tagEcsLoop_false_ok cs h st []
    rw [htl] at hok
    have hab : ab = false := hok.1
    subst hab
    simp only [tag_ecs_resources, htl]
    exact hok.2 hst
  · simp [ecsListedOk] at h

lemma tag_elasticache_false_statsOk (cc rg : EnumRes CacheItem)
    (hc : enumListed cc = true) (hr : enumListed rg = true) (st : TagState)
    (hst : statsOk st.stats) :
    statsOk ((tag_elasticache_resources false cc rg st).1).stats := by
  rcases cc with xs | _
  · rcases rg with ys | _
    · simp only [tag_elasticache_resources]
      exact tagCacheLoop_false_statsOk _ _ _ _
        (tagCacheLoop_false_statsOk _ _ _ _ hst)
    · simp [enumListed] at hr
  · simp [enumListed] at hc

lemma tag_load_balancers_false_statsOk (v2 : EnumRes RgItem)
    (classic : EnumRes DirectItem) (hv : enumListed v2 = true)
    (hc : directAllOk classic = true) (st : TagState)
    (hst : statsOk st.stats) :
    statsOk ((tag_load_balancers false v2 classic st).1).stats := by
  rcases v2 with xs | _
  · rcases classic with ys | _
    · have hy : ys.all (fun i => i.outcome == CallOutcome.ok) = true := hc
      simp only [tag_load_balancers, tagDirectLoop_allOk_spec _ ys hy]
      exact statsOk_addTT _ _ (tagRgLoop_false_statsOk _ _ _ _ hst)
    · simp [directAllOk] at hc
  · simp [enumListed] at hv

lemma subRg_false_statsOk (pfx : String) (e : EnumRes RgItem)
    (st : TagState) (acc : List String) (hst : statsOk st.stats) :
    statsOk ((subRg false pfx e st acc).1).stats := by
  rcases e with xs | _
  · exact tagRgLoop_false_statsOk _ _ _ _ hst
  · exact hst

lemma subPre_false_statsOk (pfx : String) (e : EnumRes PreItem)
    (st : TagState) (acc : List String) (hst : statsOk st.stats) :
    statsOk ((subPre false pfx e st acc).1).stats := by
  rcases e with xs | _
  · rcases htl : tagPreRgLoop false pfx xs st acc with ⟨st1, acc1, ab⟩
    simp only [subPre, htl]
    have := tagPreRgLoop_false_statsOk_any pfx xs st acc hst
    rw [htl] at this
    exact this
  · exact hst

lemma tag_additional_false_statsOk (a : AdditionalEnv) (st : TagState)
    (hst : statsOk st.stats) :
    statsOk ((tag_additional_services false a st).1).stats := by
  simp only [tag_additional_services]
  exact subPre_false_statsOk _ _ _ _
    (subRg_false_statsOk _ _ _ _
      (subRg_false_statsOk _ _ _ _
        (subPre_false_statsOk _ _ _ _
          (subRg_false_statsOk _ _ _ _ hst))))

/-! ### Kind-level skipped invariance (unconditional) -/

lemma tagDirectKind_skipped (dry : Bool)
    (groups : List (String × EnumRes DirectItem)) :
    ∀ st acc, ((tagDirectKind dry groups st acc).1).stats.skipped =
      st.stats.skipped := by
  induction groups with
  | nil => intro st acc; rfl
  | cons g rest ih =>
    intro st acc
    obtain ⟨pfx, e⟩ := g
    rcases e with xs | _
    · rcases htl : tagDirectLoop dry pfx xs st acc with ⟨st1, acc1, ab⟩
      have h1 : st1.stats.skipped = st.stats.skipped := by
        have := tagDirectLoop_skipped dry pfx xs st acc
        rw [htl] at this
        exact this
      cases ab with
      | true => simp [tagDirectKind, htl, bumpFailed, h1]
      | false =>
        simp only [tagDirectKind, htl]
        rw [ih, h1]
    · simp [tagDirectKind, bumpFailed]

lemma tagRgKind_skipped (dry : Bool)
    (groups : List (String × EnumRes RgItem)) :
    ∀ st acc, ((tagRgKind dry groups st acc).1).stats.skipped =
      st.stats.skipped := by
  induction groups with
  | nil => intro st acc; rfl
  | cons g rest ih =>
    intro st acc
    obtain ⟨pfx, e⟩ := g
    rcases e with xs | _
    · simp only [tagRgKind]
      rw [ih, tagRgLoop_skipped]
    · simp [tagRgKind, bumpFailed]

lemma tagPreKind_skipped (dry : Bool) (pfx : String) (e : EnumRes PreItem)
    (st : TagState) :
    ((tagPreKind dry pfx e st).1).stats.skipped = st.stats.skipped := by
  rcases e with xs | _
  · rcases htl : tagPreRgLoop dry pfx xs st [] with ⟨st1, acc1, ab⟩
    have h1 : st1.stats.skipped = st.stats.skipped := by
      have := tagPreRgLoop_skipped dry pfx xs st []
      rw [htl] at this
      exact this
    cases ab with
    | true => simp [tagPreKind, htl, bumpFailed, h1]
    | false => simp [tagPreKind, htl, h1]
  · simp [tagPreKind, bumpFailed]

lemma tag_s3_buckets_skipped (dry : Bool) (region tagKey tagValue : String)
    (e : EnumRes Bucket) (st : TagState) :
    ((tag_s3_buckets dry region tagKey tagValue e st).1).stats.skipped =
      st.stats.skipped := by
  rcases e with bs | _
  · exact s3Loop_skipped dry region tagKey tagValue bs st []
  · simp [tag_s3_buckets, bumpFailed]

lemma tag_ecs_skipped (dry : Bool) (e : EnumRes EcsCluster) (st : TagState) :
    ((tag_ecs_resources dry e st).1).stats.skipped = st.stats.skipped := by
  rcases e with cs | _
  · rcases htl : tagEcsLoop dry cs st [] with ⟨st1, acc1, ab⟩
    have h1 : st1.stats.skipped = st.stats.skipped := by
      have := tagEcsLoop_skipped dry cs st []
      rw [htl] at this
      exact this
    cases ab with
    | true => simp [tag_ecs_resources, htl, bumpFailed, h1]
    | false => simp [tag_ecs_resources, htl, h1]
  · simp [tag_ecs_resources, bumpFailed]

lemma tag_elasticache_skipped (dry : Bool) (cc rg : EnumRes CacheItem)
    (st : TagState) :
    ((tag_elasticache_resources dry cc rg st).1).stats.skipped =
      st.stats.skipped := by
  rcases cc with xs | _
  · rcases rg with ys | _
    · simp only [tag_elasticache_resources]
      rw [tagCacheLoop_skipped, tagCacheLoop_skipped]
    · simp only [tag_elasticache_resources]
      rw [bumpFailed, tagCacheLoop_skipped]
  · simp [tag_elasticache_resources, bumpFailed]

lemma tag_load_balancers_skipped (dry : Bool) (v2 : EnumRes RgItem)
    (classic : EnumRes DirectItem) (st : TagState) :
    ((tag_load_balancers dry v2 classic st).1).stats.skipped =
      st.stats.skipped := by
  rcases v2 with xs | _
  · rcases classic with ys | _
    · rcases htl : tagDirectLoop dry "classic-lb" ys
        (tagRgLoop dry "alb-nlb" xs st []).1
        (tagRgLoop dry "alb-nlb" xs st []).2 with ⟨st2, acc2, ab⟩
      have h2 : st2.stats.skipped = st.stats.skipped := by
        have := tagDirectLoop_skipped dry "classic-lb" ys
          (tagRgLoop dry "alb-nlb" xs st []).1
          (tagRgLoop dry "alb-nlb" xs st []).2
        rw [htl] at this
        rw [this, tagRgLoop_skipped]
      cases ab with
      | true => simp [tag_load_balancers, htl, bumpFailed, h2]
      | false => simp [tag_load_balancers, htl, h2]
    · simp only [tag_load_balancers]
      rw [bumpFailed, tagRgLoop_skipped]
  · simp [tag_load_balancers, bumpFailed]

lemma subRg_skipped (dry : Bool) (pfx : String) (e : EnumRes RgItem)
    (st : TagState) (acc : List String) :
    ((subRg dry pfx e st acc).1).stats.skipped = st.stats.skipped := by
  rcases e with xs | _
  · exact tagRgLoop_skipped dry pfx xs st acc
  · rfl

lemma subPre_skipped (dry : Bool) (pfx : String) (e : EnumRes PreItem)
    (st : TagState) (acc : List String) :
    ((subPre dry pfx e st acc).1).stats.skipped = st.stats.skipped := by
  rcases e with xs | _
  · rcases htl : tagPreRgLoop dry pfx xs st acc with ⟨st1, acc1, ab⟩
    have h1 : st1.stats.skipped = st.stats.skipped := by
      have := tagPreRgLoop_skipped dry pfx xs st acc
      rw [htl] at this
      exact this
    simp [subPre, htl, h1]
  · rfl

lemma tag_additional_skipped (dry : Bool) (a : AdditionalEnv)
    (st : TagState) :
    ((tag_additional_services dry a st).1).stats.skipped =
      st.stats.skipped := by
  simp only [tag_additional_services]
  rw [subPre_skipped, subRg_skipped, subRg_skipped, subPre_skipped,
    subRg_skipped]

/-! ### Dispatcher-level lemmas -/

set_option maxHeartbeats 2000000 in
lemma runService_dry (region tagKey tagValue : String) (env : RegionEnv)
    (h : regionEnumOk env = true) (name : String) (st : TagState) :
    ∃ l, runService true region tagKey tagValue env name st =
      (addTotal st l.length, l) := by
  simp only [regionEnumOk, Bool.and_eq_true] at h
  obtain ⟨⟨⟨⟨⟨⟨⟨⟨⟨⟨⟨⟨⟨⟨⟨h1, h2⟩, h3⟩, h4⟩, h5⟩, h6⟩, h7⟩, h8⟩, h9⟩,
    h10⟩, h11⟩, h12⟩, h13⟩, h14⟩, h15⟩, h16⟩ := h
  unfold runService
  split_ifs
  · obtain ⟨l, hl⟩ := tagDirectKind_true
      [("ec2-instance", env.ec2Instances), ("ebs-volume", env.ec2Volumes),
       ("ebs-snapshot", env.ec2Snapshots),
       ("transit-gateway", env.ec2TransitGateways)]
      (by simp [h1, h2, h3, h4]) st []
    exact ⟨l, by simpa [tag_ec2_resources] using hl⟩
  · exact tag_s3_buckets_true region tagKey tagValue env.s3 h5 st
  · obtain ⟨l, hl⟩ := tagRgKind_true [("lambda", env.lambdaFunctions)]
      (by simp [h6]) st []
    exact ⟨l, by simpa [tag_lambda_functions] using hl⟩
  · obtain ⟨l, hl⟩ := tagRgKind_true
      [("rds-instance", env.rdsInstances), ("rds-cluster", env.rdsClusters)]
      (by simp [h7, h8]) st []
    exact ⟨l, by simpa [tag_rds_resources] using hl⟩
  · exact tagPreKind_true "dynamodb" env.dynamodb h9 st
  · exact tag_ecs_true env.ecs h10 st
  · exact tagPreKind_true "eks" env.eks h11 st
  · exact tag_elasticache_true env.cacheClusters env.replicationGroups
      h12 h13 st
  · exact tag_load_balancers_true env.elbV2 env.elbClassic h14 h15 st
  · exact tag_additional_true env.additional st
  · exact ⟨[], by simp [addTotal_zero]⟩

set_option maxHeartbeats 2000000 in
lemma runService_statsOk (region tagKey tagValue : String) (env : RegionEnv)
    (h : regionOnPath env = true) (name : String) (st : TagState)
    (hst : statsOk st.stats) :
    statsOk ((runService false region tagKey tagValue env name st).1).stats
    := by
  simp only [regionOnPath, Bool.and_eq_true] at h
  obtain ⟨⟨⟨⟨⟨⟨⟨⟨⟨⟨⟨⟨⟨⟨⟨h1, h2⟩, h3⟩, h4⟩, h5⟩, h6⟩, h7⟩, h8⟩, h9⟩,
    h10⟩, h11⟩, h12⟩, h13⟩, h14⟩, h15⟩, h16⟩ := h
  unfold runService
  split_ifs
  · exact tagDirectKind_false_statsOk _ (by simp [h1, h2, h3, h4]) st [] hst
  · exact tag_s3_buckets_false_statsOk region tagKey tagValue env.s3 h5 st hst
  · exact tagRgKind_false_statsOk [("lambda", env.lambdaFunctions)]
      (by simp [h6]) st [] hst
  · exact tagRgKind_false_statsOk
      [("rds-instance", env.rdsInstances), ("rds-cluster", env.rdsClusters)]
      (by simp [h7, h8]) st [] hst
  · exact tagPreKind_false_statsOk "dynamodb" env.dynamodb h9 st hst
  · exact tag_ecs_false_statsOk env.ecs h10 st hst
  · exact tagPreKind_false_statsOk "eks" env.eks h11 st hst
  · exact tag_elasticache_false_statsOk env.cacheClusters
      env.replicationGroups h12 h13 st hst
  · exact tag_load_balancers_false_statsOk env.elbV2 env.elbClassic
      h14 h15 st hst
  · exact tag_additional_false_statsOk env.additional st hst
  · exact hst

set_option maxHeartbeats 2000000 in
lemma runService_skipped (dry : Bool) (region tagKey tagValue : String)
    (env : RegionEnv) (name : String) (st : TagState) :
    ((runService dry region tagKey tagValue env name st).1).stats.skipped =
      st.stats.skipped := by
  unfold runService
  split_ifs
  · exact tagDirectKind_skipped dry _ st []
  · exact tag_s3_buckets_skipped dry region tagKey tagValue env.s3 st
  · exact tagRgKind_skipped dry _ st []
  · exact tagRgKind_skipped dry _ st []
  · exact tagPreKind_skipped dry "dynamodb" env.dynamodb st
  · exact tag_ecs_skipped dry env.ecs st
  · exact tagPreKind_skipped dry "eks" env.eks st
  · exact tag_elasticache_skipped dry env.cacheClusters
      env.replicationGroups st
  · exact tag_load_balancers_skipped dry env.elbV2 env.elbClassic st
  · exact tag_additional_skipped dry env.additional st
  · rfl

lemma runServices_dry (region tagKey tagValue : String) (env : RegionEnv)
    (h : regionEnumOk env = true) :
    ∀ (names : List String) (st : TagState)
      (acc : List (String × List String)),
      ∃ rs, runServices true region tagKey tagValue env names st acc =
        (addTotal st (sumLens rs), acc ++ rs) := by
  intro names
  induction names with
  | nil =>
    intro st acc
    exact ⟨[], by simp [runServices, sumLens, addTotal_zero]⟩
  | cons n rest ih =>
    intro st acc
    obtain ⟨l, hl⟩ := runService_dry region tagKey tagValue env h n st
    obtain ⟨rs, hrs⟩ := ih (addTotal st l.length) (acc ++ [(n, l)])
    refine ⟨(n, l) :: rs, ?_⟩
    simp only [runServices, hl]
    rw [hrs]
    simp [sumLens, addTotal_addTotal, List.append_assoc]

lemma runServices_statsOk (region tagKey tagValue : String)
    (env : RegionEnv) (h : regionOnPath env = true) :
    ∀ (names : List String) (st : TagState)
      (acc : List (String × List String)),
      statsOk st.stats →
      statsOk ((runServices false region tagKey tagValue env names st acc
        ).1).stats := by
  intro names
  induction names with
  | nil => intro st acc hst; exact hst
  | cons n rest ih =>
    intro st acc hst
    simp only [runServices]
    exact ih _ _ (runService_statsOk region tagKey tagValue env h n st hst)

lemma runServices_skipped (dry : Bool) (region tagKey tagValue : String)
    (env : RegionEnv) :
    ∀ (names : List String) (st : TagState)
      (acc : List (String × List String)),
      ((runServices dry region tagKey tagValue env names st acc
        ).1).stats.skipped = st.stats.skipped := by
  intro names
  induction names with
  | nil => intro st acc; rfl
  | cons n rest ih =>
    intro st acc
    simp only [runServices]
    rw [ih, runService_skipped]

lemma runServices_keys (dry : Bool) (region tagKey tagValue : String)
    (env : RegionEnv) :
    ∀ (names : List String) (st : TagState)
      (acc : List (String × List String)),
      ((runServices dry region tagKey tagValue env names st acc
        ).2).map Prod.fst = acc.map Prod.fst ++ names := by
  intro names
  induction names with
  | nil => intro st acc; simp [runServices]
  | cons n rest ih =>
    intro st acc
    simp only [runServices]
    rw [ih]
    simp

/-! ### Concrete inputs for counterexamples and witnesses -/

instance {ε α : Type} [DecidableEq ε] [DecidableEq α] :
    DecidableEq (Except ε α) := fun a b =>
  match a, b with
  | .error x, .error y =>
    if h : x = y then isTrue (by rw [h])
    else isFalse (fun hab => by cases hab; exact h rfl)
  | .error _, .ok _ => isFalse (fun hab => by cases hab)
  | .ok _, .error _ => isFalse (fun hab => by cases hab)
  | .ok x, .ok y =>
    if h : x = y then isTrue (by rw [h])
    else isFalse (fun hab => by cases hab; exact h rfl)

/-- A provider world in which every region task observes `emptyEnv`. -/
def world0 : String → Except String RegionEnv := fun _ => Except.ok emptyEnv

/-- A provider world in which every region task raises. -/
def worldBoom : String → Except String RegionEnv :=
  fun _ => Except.error "boom"

/-- One Lambda function discoverable, tagging would succeed. -/
def envOneLambda : RegionEnv :=
  { emptyEnv with lambdaFunctions := EnumRes.ok [⟨"f1", CallOutcome.ok⟩] }

/-- Two Lambda functions, the second one's tagging call raises. -/
def lambdaMixed : EnumRes RgItem :=
  EnumRes.ok [⟨"f1", CallOutcome.ok⟩, ⟨"f2", CallOutcome.clientError⟩]

/-- A region with the mixed Lambda pair and nothing else. -/
def envLambdaMixed : RegionEnv :=
  { emptyEnv with lambdaFunctions := lambdaMixed }

/-- One Lambda function and one S3 bucket with no `LocationConstraint`. -/
def envSmall : RegionEnv :=
  { emptyEnv with
      lambdaFunctions := EnumRes.ok [⟨"f1", CallOutcome.ok⟩],
      s3 := EnumRes.ok [⟨"b1", false, none, some [], CallOutcome.ok⟩] }

/-- A single globally-namespaced bucket whose `LocationConstraint` is null
(an us-east-1 bucket). -/
def envSharedBucket : RegionEnv :=
  { emptyEnv with
      s3 := EnumRes.ok [⟨"shared", false, none, some [], CallOutcome.ok⟩] }

/-! ### Claim theorems -/

/-- Claim C9 (confirmed): the `skipped` counter is initialised to 0 and never
incremented by any operation, so the statistics record of every region pass
reports `skipped = 0` (and the global aggregate of lines 552-556 -- the
`GlobalStats` structure here -- carries no `skipped` field at all; the
degraded record of a failed region task likewise has none). -/
theorem C9_skipped_always_zero (region tagKey tagValue : String)
    (dry : Bool) (services : Option (List String)) (env : RegionEnv) :
    ((process_region region tagKey tagValue dry services env
      ).1).statistics.skipped = 0 := by
  simp only [process_region, tag_all_resources]
  rw [runServices_skipped]
  rfl

/-- Claim C10 (confirmed): an event that supplies `"regions": []` makes the
handler raise instead of returning a response, because
`min(len(regions), 5) = 0` and `ThreadPoolExecutor` rejects
`max_workers = 0` with a `ValueError`. -/
theorem C10_empty_regions_raises (cfg : EnvConfig) (event : Event)
    (world : String → Except String RegionEnv)
    (h : event.regions = some []) :
    lambda_handler cfg event world =
      Except.error "ValueError: max_workers must be greater than 0" := by
  simp [lambda_handler, resolveRegions, h]

/-- Witness for C10 at a concrete event. -/
theorem C10_empty_regions_raises_witness :
    lambda_handler cfg0 ⟨some true, none, none, some [], none⟩ world0 =
      Except.error "ValueError: max_workers must be greater than 0" :=
  C10_empty_regions_raises cfg0 ⟨some true, none, none, some [], none⟩
    world0 rfl

/-- Claim C7 counterexample: the claim says the handler returns a statusCode
200 summary for *every* invocation event, but the event
`{"regions": []}` makes it raise a `ValueError` (see C10). -/
theorem C7_counterexample :
    lambda_handler cfg0 ⟨none, none, none, some [], none⟩ world0 =
      Except.error "ValueError: max_workers must be greater than 0" := by
  rfl

/-- Claim C7 (corrected): for every invocation event whose *resolved region
list is non-empty*, the handler returns a summary response with
statusCode 200 -- even when every resource fails to tag or every region task
fails entirely; the only exception is an explicitly empty `regions` list,
which makes the thread-pool constructor raise. -/
theorem C7_returns_200_amended (cfg : EnvConfig) (event : Event)
    (world : String → Except String RegionEnv)
    (h : resolveRegions cfg event ≠ []) :
    responseStatus (lambda_handler cfg event world) = some 200 := by
  have hlen : (resolveRegions cfg event).length ≠ 0 :=
    fun h0 => h (List.length_eq_zero.mp h0)
  have hmin : ¬((resolveRegions cfg event).length.min 5 = 0) := by
    have h5 : 0 < (resolveRegions cfg event).length.min 5 :=
      lt_min (Nat.pos_of_ne_zero hlen) (by norm_num)
    omega
  simp only [lambda_handler]
  rw [if_neg hmin]
  rfl

/-- Witness for the amended C7: a one-region event, every region task
failing, still yields statusCode 200. -/
theorem C7_returns_200_amended_witness :
    resolveRegions cfg0 ⟨none, none, none, some ["us-east-1"], none⟩ ≠ [] ∧
    responseStatus (lambda_handler cfg0
      ⟨none, none, none, some ["us-east-1"], none⟩ worldBoom) = some 200 :=
  ⟨by decide,
   C7_returns_200_amended cfg0 ⟨none, none, none, some ["us-east-1"], none⟩
     worldBoom (by decide)⟩

/-- Claim C8 (confirmed): each global statistic of the Run Summary equals
the sum of that statistic over all per-region records, including the
degraded `failed = 1` records of regions whose task failed entirely
(`recordTotal`/`recordTagged`/`recordFailed` read `r['statistics']` of both
record shapes). -/
theorem C8_global_stats_sums (cfg : EnvConfig) (event : Event)
    (world : String → Except String RegionEnv) (resp : Response)
    (h : lambda_handler cfg event world = Except.ok resp) :
    resp.total_statistics.total =
      (resp.region_details.map recordTotal).sum ∧
    resp.total_statistics.tagged =
      (resp.region_details.map recordTagged).sum ∧
    resp.total_statistics.failed =
      (resp.region_details.map recordFailed).sum := by
  simp only [lambda_handler] at h
  split at h
  · exact absurd h (by simp)
  · injection h with h'
    subst h'
    exact ⟨rfl, rfl, rfl⟩

/-- Witness for C8 on a run whose single region task fails entirely. -/
theorem C8_global_stats_sums_witness :
    (lambda_handler cfg0 ⟨some false, none, none, some ["us-east-1"], none⟩
      worldBoom =
      Except.ok ⟨200, "AWS PRM tagging completed", false, 1, ⟨0, 0, 1⟩,
        [RegionRecord.taskFailed "us-east-1" "boom"]⟩) ∧
    (⟨200, "AWS PRM tagging completed", false, 1, ⟨0, 0, 1⟩,
        [RegionRecord.taskFailed "us-east-1" "boom"]⟩ : Response
      ).total_statistics.total =
      ((⟨200, "AWS PRM tagging completed", false, 1, ⟨0, 0, 1⟩,
        [RegionRecord.taskFailed "us-east-1" "boom"]⟩ : Response
      ).region_details.map recordTotal).sum :=
  ⟨by decide,
   (C8_global_stats_sums cfg0
     ⟨some false, none, none, some ["us-east-1"], none⟩
     worldBoom _ (by decide)).1⟩

/-- Claim C1 counterexample: a dry run over one Lambda function produces the
statistics record `{total: 1, tagged: 0, failed: 0, skipped: 0}` -- the
dry-run branch of `tag_using_resource_groups_api` (line 69) increments
`total` without incrementing `skipped`, so
`total == tagged + failed + skipped` fails. -/
theorem C1_counterexample :
    ¬ (((process_region "us-east-1" "k" "v" true (some ["lambda"])
        envOneLambda).1).statistics.total =
      ((process_region "us-east-1" "k" "v" true (some ["lambda"])
        envOneLambda).1).statistics.tagged +
      ((process_region "us-east-1" "k" "v" true (some ["lambda"])
        envOneLambda).1).statistics.failed +
      ((process_region "us-east-1" "k" "v" true (some ["lambda"])
        envOneLambda).1).statistics.skipped) := by
  decide

/-- Claim C1 (corrected): `total == tagged + failed + skipped` holds for the
statistics of a non-dry-run region pass whose enumeration succeeds and whose
only tagging failures are per-resource client errors on the Resource Groups
Tagging API path (`regionOnPath`).  It fails in general: a dry-run
consideration increments `total` without `skipped`; kind-level enumeration
failures, S3 per-bucket failures and EC2/classic-ELB per-resource aborts
increment `failed` without `total`; and the degraded record of a failed
region task reports `failed = 1` with `total = 0`. -/
theorem C1_total_equation_amended (region tagKey tagValue : String)
    (services : Option (List String)) (env : RegionEnv)
    (h : regionOnPath env = true) :
    ((process_region region tagKey tagValue false services env
      ).1).statistics.total =
    ((process_region region tagKey tagValue false services env
      ).1).statistics.tagged +
    ((process_region region tagKey tagValue false services env
      ).1).statistics.failed +
    ((process_region region tagKey tagValue false services env
      ).1).statistics.skipped := by
  have h0 : statsOk initState.stats := rfl
  have hm := runServices_statsOk region tagKey tagValue env h
    (selectedServices services) initState [] h0
  simp only [process_region, tag_all_resources]
  exact hm

/-- Witness for the amended C1: a non-dry run over one succeeding and one
failing Lambda function. -/
theorem C1_total_equation_amended_witness :
    regionOnPath envLambdaMixed = true ∧
    ((process_region "us-east-1" "k" "v" false none envLambdaMixed
      ).1).statistics.total =
    ((process_region "us-east-1" "k" "v" false none envLambdaMixed
      ).1).statistics.tagged +
    ((process_region "us-east-1" "k" "v" false none envLambdaMixed
      ).1).statistics.failed +
    ((process_region "us-east-1" "k" "v" false none envLambdaMixed
      ).1).statistics.skipped :=
  ⟨by decide,
   C1_total_equation_amended "us-east-1" "k" "v" none envLambdaMixed
     (by decide)⟩

/-- Claim C2 counterexample: EC2 discovers two instances; tagging the first
raises `ClientError`.  The exception escapes the per-resource loop to the
kind-level handler (line 159), so the second instance -- whose own tagging
call would succeed -- is never processed: the results list is empty and
`total = tagged = 0`, `failed = 1`. -/
theorem C2_counterexample :
    (tag_ec2_resources false
      (EnumRes.ok [⟨"i-1", CallOutcome.clientError⟩,
        ⟨"i-2", CallOutcome.ok⟩])
      (EnumRes.ok []) (EnumRes.ok []) (EnumRes.ok []) initState).2 = [] ∧
    ((tag_ec2_resources false
      (EnumRes.ok [⟨"i-1", CallOutcome.clientError⟩,
        ⟨"i-2", CallOutcome.ok⟩])
      (EnumRes.ok []) (EnumRes.ok []) (EnumRes.ok [])
      initState).1).stats.total = 0 ∧
    ((tag_ec2_resources false
      (EnumRes.ok [⟨"i-1", CallOutcome.clientError⟩,
        ⟨"i-2", CallOutcome.ok⟩])
      (EnumRes.ok []) (EnumRes.ok []) (EnumRes.ok [])
      initState).1).stats.tagged = 0 ∧
    ((tag_ec2_resources false
      (EnumRes.ok [⟨"i-1", CallOutcome.clientError⟩,
        ⟨"i-2", CallOutcome.ok⟩])
      (EnumRes.ok []) (EnumRes.ok []) (EnumRes.ok [])
      initState).1).stats.failed = 1 := by
  decide

/-- Claim C2 (corrected): for kinds tagged through the Resource Groups
Tagging API path (here `tag_lambda_functions` as the representative), a
per-resource client error is caught inside the helper, counted (`total` and
`failed` both incremented) and every remaining resource is still processed;
but on the EC2 `create_tags` path (and the classic-ELB `add_tags` path) a
per-resource client error instead aborts the remainder of the kind's
enumeration and is counted as one kind-level `failed` unit. -/
theorem C2_failure_isolation_amended :
    (∀ (items : List RgItem) (st : TagState),
      ((tag_lambda_functions false (EnumRes.ok items) st).1).stats.total =
        st.stats.total + items.length ∧
      ((tag_lambda_functions false (EnumRes.ok items) st).1).stats.tagged =
        st.stats.tagged + countOk items ∧
      ((tag_lambda_functions false (EnumRes.ok items) st).1).stats.failed =
        st.stats.failed + countErr items ∧
      ((tag_lambda_functions false (EnumRes.ok items) st).2).length =
        countOk items) ∧
    (∀ (xs ys : List DirectItem) (nm : String) (st : TagState),
      xs.all (fun i => i.outcome == CallOutcome.ok) = true →
      ((tag_ec2_resources false
          (EnumRes.ok (xs ++ ⟨nm, CallOutcome.clientError⟩ :: ys))
          (EnumRes.ok []) (EnumRes.ok []) (EnumRes.ok [])
          st).1).stats.failed = st.stats.failed + 1 ∧
      ((tag_ec2_resources false
          (EnumRes.ok (xs ++ ⟨nm, CallOutcome.clientError⟩ :: ys))
          (EnumRes.ok []) (EnumRes.ok []) (EnumRes.ok [])
          st).1).stats.total = st.stats.total + xs.length ∧
      ((tag_ec2_resources false
          (EnumRes.ok (xs ++ ⟨nm, CallOutcome.clientError⟩ :: ys))
          (EnumRes.ok []) (EnumRes.ok []) (EnumRes.ok [])
          st).2).length = xs.length) := by
  constructor
  · intro items st
    simp only [tag_lambda_functions, tagRgKind, tagRgLoop_false_spec]
    simp [countOk]
  · intro xs ys nm st hx
    have he : (⟨nm, CallOutcome.clientError⟩ : DirectItem).outcome =
        CallOutcome.clientError := rfl
    simp only [tag_ec2_resources, tagDirectKind,
      tagDirectLoop_firstErr "ec2-instance" xs _ ys hx he]
    refine ⟨?_, ?_, ?_⟩ <;> simp [bumpFailed, bumpMut, addTT]

/-- Witness for the amended C2: one succeeding instance, then a failing one,
then one that is never reached. -/
theorem C2_failure_isolation_amended_witness :
    ([(⟨"i-0", CallOutcome.ok⟩ : DirectItem)].all
      (fun i => i.outcome == CallOutcome.ok) = true) ∧
    ((tag_ec2_resources false
        (EnumRes.ok ([⟨"i-0", CallOutcome.ok⟩] ++
          ⟨"i-err", CallOutcome.clientError⟩ :: [⟨"i-2", CallOutcome.ok⟩]))
        (EnumRes.ok []) (EnumRes.ok []) (EnumRes.ok [])
        initState).1).stats.failed = initState.stats.failed + 1 :=
  ⟨by decide,
   (C2_failure_isolation_amended.2 [⟨"i-0", CallOutcome.ok⟩]
     [⟨"i-2", CallOutcome.ok⟩] "i-err" initState (by decide)).1⟩

/-- Claim C3 (code bug): the S3 applier reads the existing `TagSet` and
*appends* `{'Key': tag_key, 'Value': tag_value}` without overwriting an
existing entry for the same key (line 191).  On a bucket already carrying
the key -- e.g. any bucket tagged by a previous run -- the program writes a
`TagSet` with a duplicate key, and re-applying `mergeTags` grows the set
instead of leaving it unchanged, so the operation is neither idempotent nor
duplicate-free. -/
theorem C3_duplicate_tag_write :
    ((tag_s3_buckets false "us-east-1" "aws-apn-id"
      "pc:3jtjsihjubajawpl401j5b27s"
      (EnumRes.ok [⟨"b", false, none,
        some [("aws-apn-id", "pc:3jtjsihjubajawpl401j5b27s")],
        CallOutcome.ok⟩])
      initState).1).s3Writes =
      [[("aws-apn-id", "pc:3jtjsihjubajawpl401j5b27s"),
        ("aws-apn-id", "pc:3jtjsihjubajawpl401j5b27s")]] ∧
    mergeTags "aws-apn-id" "v" (mergeTags "aws-apn-id" "v" []) ≠
      mergeTags "aws-apn-id" "v" [] ∧
    ¬ ((mergeTags "aws-apn-id" "v" [("aws-apn-id", "v")]).map
      Prod.fst).Nodup := by
  decide

/-- Claim C4 (confirmed): in dry-run mode, for every environment whose
enumeration succeeds, no mutating provider call is issued
(`mutCalls = 0`, no `put_bucket_tagging` body recorded), nothing is counted
`tagged`, `failed` or `skipped`, and every resource considered appears in
the report: `total` equals the number of reported identifiers. -/
theorem C4_dry_run_no_mutation (region tagKey tagValue : String)
    (services : Option (List String)) (env : RegionEnv)
    (h : regionEnumOk env = true) :
    (process_region region tagKey tagValue true services env).2.mutCalls
      = 0 ∧
    (process_region region tagKey tagValue true services env).2.s3Writes
      = [] ∧
    ((process_region region tagKey tagValue true services env
      ).1).statistics.tagged = 0 ∧
    ((process_region region tagKey tagValue true services env
      ).1).statistics.failed = 0 ∧
    ((process_region region tagKey tagValue true services env
      ).1).statistics.skipped = 0 ∧
    ((process_region region tagKey tagValue true services env
      ).1).statistics.total =
      sumLens ((process_region region tagKey tagValue true services env
        ).1).resources := by
  obtain ⟨rs, hrs⟩ := runServices_dry region tagKey tagValue env h
    (selectedServices services) initState []
  have hpr : process_region region tagKey tagValue true services env =
      (⟨region, rs, (addTotal initState (sumLens rs)).stats⟩,
       addTotal initState (sumLens rs)) := by
    simp [process_region, tag_all_resources, hrs]
  rw [hpr]
  refine ⟨rfl, rfl, rfl, rfl, rfl, ?_⟩
  simp [addTotal, initState]

/-- Witness for C4: a dry run over one Lambda function and one bucket. -/
theorem C4_dry_run_no_mutation_witness :
    regionEnumOk envSmall = true ∧
    (process_region "us-east-1" "k" "v" true none envSmall).2.mutCalls = 0 ∧
    (process_region "us-east-1" "k" "v" true none envSmall).2.s3Writes = []
      ∧
    ((process_region "us-east-1" "k" "v" true none envSmall
      ).1).statistics.tagged = 0 ∧
    ((process_region "us-east-1" "k" "v" true none envSmall
      ).1).statistics.failed = 0 ∧
    ((process_region "us-east-1" "k" "v" true none envSmall
      ).1).statistics.skipped = 0 ∧
    ((process_region "us-east-1" "k" "v" true none envSmall
      ).1).statistics.total =
      sumLens ((process_region "us-east-1" "k" "v" true none envSmall
        ).1).resources :=
  ⟨by decide,
   C4_dry_run_no_mutation "us-east-1" "k" "v" none envSmall (by decide)⟩

/-- Claim C5 counterexample: a bucket with no `LocationConstraint` (an
us-east-1 bucket) satisfies the selection condition of line 181 in *every*
region pass, so the two region passes of a
`regions = ["us-east-1", "us-west-2"]` run both tag the same bucket. -/
theorem C5_counterexample :
    ((process_region "us-east-1" "k" "v" false (some ["s3"])
      envSharedBucket).1).resources = [("s3", ["s3-bucket:shared"])] ∧
    ((process_region "us-west-2" "k" "v" false (some ["s3"])
      envSharedBucket).1).resources = [("s3", ["s3-bucket:shared"])] ∧
    ((process_region "us-west-2" "k" "v" false (some ["s3"])
      envSharedBucket).1).statistics.tagged = 1 := by
  decide

/-- Claim C5 (corrected): a bucket is selected in a region pass iff its
resolved location (`LocationConstraint`, defaulting to us-east-1 when null)
equals the requested region *or* equals us-east-1.  Hence buckets located
outside us-east-1 are selected only in their own region's pass (at most once
per multi-region run), but every us-east-1 bucket is selected -- and tagged
-- in every region pass. -/
theorem C5_bucket_selection_amended (region : String) (b : Bucket) :
    (bucketRegion b ≠ "us-east-1" →
      (bucketSelected region b = true ↔ bucketRegion b = region)) ∧
    (bucketRegion b = "us-east-1" → bucketSelected region b = true) := by
  constructor
  · intro hne
    constructor
    · intro hsel
      simp only [bucketSelected, Bool.or_eq_true, beq_iff_eq] at hsel
      rcases hsel with h | h
      · exact h
      · exact absurd h hne
    · intro heq
      simp [bucketSelected, heq]
  · intro heq
    simp [bucketSelected, heq]

/-- Witness for the amended C5: an eu-west-1 bucket is selected by a
us-west-2 pass iff the regions match; a null-location bucket is always
selected. -/
theorem C5_bucket_selection_amended_witness :
    (bucketRegion ⟨"b-eu", false, some "eu-west-1", none, CallOutcome.ok⟩ ≠
      "us-east-1") ∧
    (bucketSelected "us-west-2"
        ⟨"b-eu", false, some "eu-west-1", none, CallOutcome.ok⟩ = true ↔
      bucketRegion ⟨"b-eu", false, some "eu-west-1", none, CallOutcome.ok⟩ =
        "us-west-2") ∧
    (bucketRegion ⟨"b-glob", false, none, none, CallOutcome.ok⟩ =
      "us-east-1") ∧
    bucketSelected "us-west-2"
      ⟨"b-glob", false, none, none, CallOutcome.ok⟩ = true :=
  ⟨by decide,
   (C5_bucket_selection_amended "us-west-2"
     ⟨"b-eu", false, some "eu-west-1", none, CallOutcome.ok⟩).1 (by decide),
   by decide,
   (C5_bucket_selection_amended "us-west-2"
     ⟨"b-glob", false, none, none, CallOutcome.ok⟩).2 (by decide)⟩

/-- Claim C6 counterexample: a kind-level enumeration failure in
`tag_additional_services` (here SNS `list_topics` raising) is only logged --
its `except` block (lines 397-398) does not increment `failed`, so the
statistics count zero failed units, not one. -/
theorem C6_counterexample :
    ((tag_additional_services false
      ⟨EnumRes.err, EnumRes.ok [], EnumRes.ok [], EnumRes.ok [],
       EnumRes.ok []⟩ initState).1).stats.failed = 0 := by
  decide

/-- Claim C6 (corrected): a kind-level list/describe failure aborts only
that kind and leaves every other kind running (the dispatch of
`tag_all_resources` always produces all ten result entries), and for the
registry kinds (here S3 as representative) it is counted as exactly one
`failed` unit; but for the five sub-services of `tag_additional_services`
(SNS, SQS, Step Functions, Secrets Manager, EFS) the failure is not counted
at all -- sibling sub-services still run (here Step Functions still
processes its resources after an SNS enumeration failure). -/
theorem C6_kind_failure_accounting_amended :
    (∀ (dry : Bool) (region tagKey tagValue : String) (st : TagState),
      tag_s3_buckets dry region tagKey tagValue EnumRes.err st =
        (bumpFailed st, [])) ∧
    (∀ (st : TagState) (xs : List RgItem),
      ((tag_additional_services false
        ⟨EnumRes.err, EnumRes.ok [], EnumRes.ok xs, EnumRes.ok [],
         EnumRes.ok []⟩ st).1).stats.failed =
        st.stats.failed + countErr xs ∧
      ((tag_additional_services false
        ⟨EnumRes.err, EnumRes.ok [], EnumRes.ok xs, EnumRes.ok [],
         EnumRes.ok []⟩ st).1).stats.total =
        st.stats.total + xs.length) ∧
    (∀ (dry : Bool) (region tagKey tagValue : String) (env : RegionEnv)
      (st : TagState),
      (((tag_all_resources dry region tagKey tagValue env none st
        ).1).resources).map Prod.fst = allServiceNames) := by
  refine ⟨fun dry region tagKey tagValue st => rfl, ?_, ?_⟩
  · intro st xs
    refine ⟨?_, ?_⟩ <;>
      simp [tag_additional_services, subRg, subPre, tagPreRgLoop,
        tagRgLoop_false_spec, countOk, countErr]
  · intro dry region tagKey tagValue env st
    simp only [tag_all_resources]
    rw [runServices_keys]
    simp [selectedServices]

end AutoTag
